import Mathlib

/-
  Verification development for the 2D vorticity-streamfunction flow solver
  (beam-parallel-for-NBS.cpp).  The solver's global state (the two fields
  u and w), its boundary-condition machinery, the two relaxation sweeps and
  the convergence loop are embedded shallowly: fields are total functions
  on grid indices with rational values, sequential in-place loops become
  folds over the list of visited nodes, and the function-static locals of the
  convergence loop become explicitly threaded state.
-/

set_option maxHeartbeats 1000000
set_option maxRecDepth 10000

namespace BeamNBS

/-- Number of grid cells in the x direction (nodes indexed 0..Nxmax). -/
def Nxmax : ℕ := 160

/-- Number of grid cells in the y direction (nodes indexed 0..Nymax). -/
def Nymax : ℕ := 30

/-- First x index of the beam (obstacle). -/
def IL : ℕ := 10

/-- Height of the beam. -/
def H : ℕ := 8

/-- Length of the beam. -/
def T : ℕ := 8

/-- Mesh spacing. -/
def h : ℚ := 1

/-- Inflow velocity. -/
def V0 : ℚ := 1

/-- Nominal convergence tolerance (1e-8). -/
def tol : ℚ := 1 / 100000000

/-- The two scalar fields of the solver: the stream function u and the
vorticity w, as total functions on grid indices. -/
structure Grid where
  u : ℕ → ℕ → ℚ
  w : ℕ → ℕ → ℚ

/-- Reynolds-dependent configuration: target Reynolds number, kinematic
viscosity and over-relaxation factor (the globals set by
configure_reynolds). -/
structure Config where
  R_target : ℚ
  nu : ℚ
  omega : ℚ

/-- The omega step table of configure_reynolds. -/
def omega_for (re : ℚ) : ℚ :=
  if re ≤ 0.5 then 0.1
  else if re ≤ 1 then 0.08
  else if re ≤ 2 then 0.04
  else if re ≤ 5 then 0.012
  else if re ≤ 10 then 0.008
  else 0.005

/-- configure_reynolds: maps the target Reynolds number to the globals
(R_target, nu, omega). -/
def configure_reynolds (re : ℚ) : Config :=
  { R_target := re, nu := V0 * h / re, omega := omega_for re }

/-- The mesh Reynolds number R = V0*h/nu computed at the top of
relax_until_converge. -/
def meshR (cfg : Config) : ℚ := V0 * h / cfg.nu

/-- is_inside_beam: membership in the obstacle rectangle (j >= 0 holds
automatically for natural indices). -/
def is_inside_beam (i j : ℕ) : Prop := IL ≤ i ∧ i ≤ IL + T ∧ j ≤ H

instance (i j : ℕ) : Decidable (is_inside_beam i j) := by
  unfold is_inside_beam; infer_instance

/-- reset_fields: zero both fields at every grid node. -/
def reset_fields (g : Grid) : Grid :=
  ⟨fun i j => if i ≤ Nxmax ∧ j ≤ Nymax then 0 else g.u i j,
   fun i j => if i ≤ Nxmax ∧ j ≤ Nymax then 0 else g.w i j⟩

/-- First loop of borders: u = 0, w = 0 inside the beam, otherwise
w = 0 and u = j*V0. -/
def borders_init (g : Grid) : Grid :=
  ⟨fun i j => if i ≤ Nxmax ∧ j ≤ Nymax then
      (if is_inside_beam i j then 0 else (j : ℚ) * V0) else g.u i j,
   fun i j => if i ≤ Nxmax ∧ j ≤ Nymax then 0 else g.w i j⟩

/-- Free-surface loop of borders: extrapolate u on the top row and pin w
to zero on the row below. -/
def borders_surface (g : Grid) : Grid :=
  ⟨fun i j => if i ≤ Nxmax ∧ j = Nymax ∧ ¬ is_inside_beam i Nymax then
      g.u i (Nymax - 1) + V0 * h else g.u i j,
   fun i j => if i ≤ Nxmax ∧ j = Nymax - 1 ∧ ¬ is_inside_beam i Nymax ∧ 1 < Nymax then
      0 else g.w i j⟩

/-- Inlet loop of borders: copy column 0 of u into column 1 and zero w on
column 0. -/
def borders_inlet (g : Grid) : Grid :=
  ⟨fun i j => if i = 1 ∧ j ≤ Nymax ∧ ¬ is_inside_beam 0 j ∧ ¬ is_inside_beam 1 j then
      g.u 0 j else g.u i j,
   fun i j => if i = 0 ∧ j ≤ Nymax ∧ ¬ is_inside_beam 0 j ∧ ¬ is_inside_beam 1 j then
      0 else g.w i j⟩

/-- Centerline loop of borders: u = w = 0 on the bottom row outside the
beam footprint. -/
def borders_center (g : Grid) : Grid :=
  ⟨fun i j => if j = 0 ∧ i ≤ Nxmax ∧ ¬ is_inside_beam i 0 then 0 else g.u i j,
   fun i j => if j = 0 ∧ i ≤ Nxmax ∧ ¬ is_inside_beam i 0 then 0 else g.w i j⟩

/-- Outlet loop of borders: zero-gradient copy of u and w from the
previous column. -/
def borders_outlet (g : Grid) : Grid :=
  ⟨fun i j => if i = Nxmax ∧ 1 ≤ j ∧ j < Nymax ∧
        ¬ is_inside_beam Nxmax j ∧ ¬ is_inside_beam (Nxmax - 1) j then
      g.u (Nxmax - 1) j else g.u i j,
   fun i j => if i = Nxmax ∧ 1 ≤ j ∧ j < Nymax ∧
        ¬ is_inside_beam Nxmax j ∧ ¬ is_inside_beam (Nxmax - 1) j then
      g.w (Nxmax - 1) j else g.w i j⟩

/-- borders: one-time domain-edge initialization, the five loops in
source order. -/
def borders (g : Grid) : Grid :=
  borders_outlet (borders_center (borders_inlet (borders_surface (borders_init g))))

/-- Step 1 of beam_boundaries: force u = w = 0 on the whole beam. -/
def clear_beam (g : Grid) : Grid :=
  ⟨fun i j => if IL ≤ i ∧ i ≤ IL + T ∧ i ≤ Nxmax ∧ j ≤ H ∧ j ≤ Nymax then 0 else g.u i j,
   fun i j => if IL ≤ i ∧ i ≤ IL + T ∧ i ≤ Nxmax ∧ j ≤ H ∧ j ≤ Nymax then 0 else g.w i j⟩

/-- Front (left vertical) face of the beam: wall vorticity from the first
fluid node off the wall. -/
def front_face (g : Grid) : Grid :=
  ⟨g.u, fun i j =>
    if 0 < IL ∧ i = IL - 1 ∧ 1 ≤ j ∧ j ≤ H ∧ j < Nymax then
      -2 * g.u (IL - 2) j / (h * h) else g.w i j⟩

/-- Back (right vertical) face of the beam. -/
def back_face (g : Grid) : Grid :=
  ⟨g.u, fun i j =>
    if IL + T + 1 ≤ Nxmax ∧ i = IL + T + 1 ∧ 1 ≤ j ∧ j ≤ H ∧ j < Nymax then
      -2 * g.u (IL + T + 2) j / (h * h) else g.w i j⟩

/-- Top (horizontal) face of the beam. -/
def top_face (g : Grid) : Grid :=
  ⟨g.u, fun i j =>
    if H + 1 ≤ Nymax ∧ j = H + 1 ∧ IL ≤ i ∧ i ≤ IL + T ∧ i ≤ Nxmax then
      -2 * g.u i (H + 2) / (h * h) else g.w i j⟩

/-- The Reynolds-dependent corner blend of the two single-face wall
vorticity estimates. -/
def corner_blend (rt wv wh : ℚ) : ℚ :=
  if 5 ≤ rt then
    (if |wv| < |wh| then 0.7 * wv + 0.3 * wh else 0.3 * wv + 0.7 * wh)
  else 0.5 * (wv + wh)

/-- Corner treatment at the top-left beam corner (IL-1, H+1). -/
def left_corner (cfg : Config) (g : Grid) : Grid :=
  if 0 < IL ∧ H + 1 ≤ Nymax then
    ⟨g.u, fun i j => if i = IL - 1 ∧ j = H + 1 then
        corner_blend cfg.R_target
          (-2 * g.u (IL - 2) (H + 1) / (h * h))
          (-2 * g.u (IL - 1) (H + 2) / (h * h))
      else g.w i j⟩
  else g

/-- Corner treatment at the top-right beam corner (IL+T+1, H+1). -/
def right_corner (cfg : Config) (g : Grid) : Grid :=
  if IL + T + 1 ≤ Nxmax ∧ H + 1 ≤ Nymax then
    ⟨g.u, fun i j => if i = IL + T + 1 ∧ j = H + 1 then
        corner_blend cfg.R_target
          (-2 * g.u (IL + T + 2) (H + 1) / (h * h))
          (-2 * g.u (IL + T + 1) (H + 2) / (h * h))
      else g.w i j⟩
  else g

/-- The 3x3 block of nodes around the top-left corner visited by the
high-Reynolds smoothing pass, in loop order (di, dj ascending). -/
def smooth_positions : List (ℕ × ℕ) :=
  (List.range 3).flatMap fun di => (List.range 3).map fun dj => (IL - 2 + di, H + dj)

/-- The eight neighbors of a cell, in the loop order of the smoothing
filter (only used at strictly interior cells). -/
def neighbor_cells (ii jj : ℕ) : List (ℕ × ℕ) :=
  [(ii - 1, jj - 1), (ii - 1, jj), (ii - 1, jj + 1),
   (ii, jj - 1), (ii, jj + 1),
   (ii + 1, jj - 1), (ii + 1, jj), (ii + 1, jj + 1)]

/-- Sum and count of the in-bounds, non-beam neighbors used by the
smoothing filter. -/
def smooth_sum (g : Grid) (ii jj : ℕ) : ℚ × ℕ :=
  (neighbor_cells ii jj).foldl
    (fun acc q =>
      if q.1 ≤ Nxmax ∧ q.2 ≤ Nymax ∧ ¬ is_inside_beam q.1 q.2 then
        (acc.1 + g.w q.1 q.2, acc.2 + 1)
      else acc)
    (0, 0)

/-- One position of the corner smoothing pass: blend a spiked vorticity
value 60/40 with the average of its admissible neighbors. -/
def smooth_step (g : Grid) (p : ℕ × ℕ) : Grid :=
  if 0 < p.1 ∧ p.1 < Nxmax ∧ 0 < p.2 ∧ p.2 < Nymax ∧ ¬ is_inside_beam p.1 p.2 then
    if 2 < |g.w p.1 p.2| then
      let sc := smooth_sum g p.1 p.2
      if 0 < sc.2 then
        ⟨g.u, fun i j => if i = p.1 ∧ j = p.2 then
            0.6 * g.w p.1 p.2 + 0.4 * (sc.1 / (sc.2 : ℚ))
          else g.w i j⟩
      else g
    else g
  else g

/-- Step 4 of beam_boundaries: the high-Reynolds smoothing pass around
the top-left corner. -/
def smooth_pass (cfg : Config) (g : Grid) : Grid :=
  if 5 ≤ cfg.R_target then
    (if 1 < IL ∧ H + 2 ≤ Nymax then smooth_positions.foldl smooth_step g else g)
  else g

/-- Steps 1-3 of beam_boundaries (everything before the smoothing pass). -/
def beam_core (cfg : Config) (g : Grid) : Grid :=
  right_corner cfg (left_corner cfg (top_face (back_face (front_face (clear_beam g)))))

/-- beam_boundaries: obstacle-surface enforcement. -/
def beam_boundaries (cfg : Config) (g : Grid) : Grid :=
  smooth_pass cfg (beam_core cfg g)

/-- The interior nodes visited by both relaxation sweeps and by the
change-norm loop, in sweep order (i outer, j inner, both ascending). -/
def interior_pairs : List (ℕ × ℕ) :=
  (List.range' 1 (Nxmax - 1)).flatMap fun i =>
    (List.range' 1 (Nymax - 1)).map fun j => (i, j)

/-- One node update of relax_stream_function. -/
def stream_step (cfg : Config) (g : Grid) (p : ℕ × ℕ) : Grid :=
  if is_inside_beam p.1 p.2 then g else
    let i := p.1
    let j := p.2
    let old_u := g.u i j
    let new_u := 0.25 * (g.u (i + 1) j + g.u (i - 1) j + g.u i (j + 1) + g.u i (j - 1)
                 + h * h * g.w i j)
    ⟨fun a b => if a = i ∧ b = j then old_u + cfg.omega * (new_u - old_u) else g.u a b,
     g.w⟩

/-- relax_stream_function: the in-place streamfunction sweep. -/
def relax_stream_function (cfg : Config) (g : Grid) : Grid :=
  interior_pairs.foldl (stream_step cfg) g

/-- The empirical stability factor of relax_vorticity. -/
def stability_factor (rt : ℚ) : ℚ :=
  if 5 ≤ rt then 0.4 else if 2 < rt then 0.7 else if 1.5 < rt then 0.8 else 1

/-- One node update of relax_vorticity: pure diffusion next to the domain
boundary, convective-diffusive update elsewhere. -/
def vort_step (cfg : Config) (g : Grid) (p : ℕ × ℕ) : Grid :=
  if is_inside_beam p.1 p.2 then g else
    let i := p.1
    let j := p.2
    let old_w := g.w i j
    if i = 1 ∨ i = Nxmax - 1 ∨ j = 1 ∨ j = Nymax - 1 then
      let a1 := g.w (i + 1) j + g.w (i - 1) j + g.w i (j + 1) + g.w i (j - 1)
      let new_w := 0.25 * a1
      ⟨g.u, fun a b => if a = i ∧ b = j then old_w + cfg.omega * (new_w - old_w) else g.w a b⟩
    else
      let a1 := g.w (i + 1) j + g.w (i - 1) j + g.w i (j + 1) + g.w i (j - 1)
      let a2 := (g.u i (j + 1) - g.u i (j - 1)) * (g.w (i + 1) j - g.w (i - 1) j)
      let a3 := (g.u (i + 1) j - g.u (i - 1) j) * (g.w i (j + 1) - g.w i (j - 1))
      let new_w := 0.25 * (a1 - stability_factor cfg.R_target * (meshR cfg / 4) * (a2 - a3))
      ⟨g.u, fun a b => if a = i ∧ b = j then old_w + cfg.omega * (new_w - old_w) else g.w a b⟩

/-- relax_vorticity: the in-place vorticity sweep. -/
def relax_vorticity (cfg : Config) (g : Grid) : Grid :=
  interior_pairs.foldl (vort_step cfg) g

/-- The per-iteration change norms: maximum absolute change of each field
over all non-beam interior nodes, relative to the snapshotted fields. -/
def max_diffs (gNew : Grid) (uOld wOld : ℕ → ℕ → ℚ) : ℚ × ℚ :=
  interior_pairs.foldl
    (fun acc p =>
      if is_inside_beam p.1 p.2 then acc
      else (max acc.1 |gNew.u p.1 p.2 - uOld p.1 p.2|,
            max acc.2 |gNew.w p.1 p.2 - wOld p.1 p.2|))
    (0, 0)

/-- Result of one iteration of the convergence loop: the new field state
and the two change norms. -/
structure IterResult where
  grid : Grid
  du : ℚ
  dw : ℚ

/-- One iteration of the do-while loop of relax_until_converge, in source
order: enforce beam boundaries, snapshot, streamfunction sweep, vorticity
sweep, enforce beam boundaries again, compute the change norms against
the snapshot. -/
def iteration_body (cfg : Config) (g : Grid) : IterResult :=
  let g1 := beam_boundaries cfg g
  let uOld := g1.u
  let wOld := g1.w
  let g2 := relax_stream_function cfg g1
  let g3 := relax_vorticity cfg g2
  let g4 := beam_boundaries cfg g3
  let d := max_diffs g4 uOld wOld
  ⟨g4, d.1, d.2⟩

/-- Modelled from the spec: the iteration order asserted by the
specification, which snapshots the fields first and only then re-applies
the obstacle-surface boundary conditions (the claimed ordering of claim
C2); kept for comparison with iteration_body, which follows the source. -/
def iteration_body_spec_order (cfg : Config) (g : Grid) : IterResult :=
  let uOld := g.u
  let wOld := g.w
  let g1 := beam_boundaries cfg g
  let g2 := relax_stream_function cfg g1
  let g3 := relax_vorticity cfg g2
  let g4 := beam_boundaries cfg g3
  let d := max_diffs g4 uOld wOld
  ⟨g4, d.1, d.2⟩

/-- The function-static locals of relax_until_converge that track a
stagnating vorticity residual. -/
structure ConvStatics where
  last_w_error : ℚ
  stagnant_count : ℕ
deriving DecidableEq

/-- Program-start values of the static locals. -/
def statics_init : ConvStatics := ⟨-1, 0⟩

/-- The adaptive tolerance of relax_until_converge. -/
def effective_tol (rt : ℚ) : ℚ :=
  if 5 ≤ rt then tol * 200 else if 2 < rt then tol * 50 else if 1.5 < rt then tol * 10 else tol

/-- The divergence threshold, scaled down at high Reynolds numbers. -/
def divergence_threshold (rt : ℚ) : ℚ := if 5 ≤ rt then 50 else 1000

/-- The stagnation patience window. -/
def patience (rt : ℚ) : ℕ := if 5 ≤ rt then 8000 else 3000

/-- The relaxed acceptance threshold applied when the iteration budget is
exhausted. -/
def acceptance_threshold (rt : ℚ) (etol : ℚ) : ℚ :=
  if 5 ≤ rt then etol * 20000 else etol * 1000

/-- Result of the convergence loop: success flag, final fields, final
values of the static locals, and the number of executed iterations. -/
structure LoopResult where
  success : Bool
  grid : Grid
  statics : ConvStatics
  iters : ℕ

/-- The do-while loop of relax_until_converge, with the recursion fueled
by the remaining iteration budget.  Branches appear in source order:
divergence check, convergence check, partial-convergence bookkeeping on
the static locals, loop condition, and the end-of-budget acceptance
test. -/
def relax_loop (cfg : Config) (etol : ℚ) (maxIter : ℕ) :
    ℕ → Grid → ConvStatics → ℕ → LoopResult
  | 0, g, st, iter => ⟨false, g, st, iter⟩
  | fuel + 1, g, st, iter =>
    let r := iteration_body cfg g
    let iter2 := iter + 1
    if divergence_threshold cfg.R_target < r.du ∨ divergence_threshold cfg.R_target < r.dw then
      ⟨false, r.grid, st, iter2⟩
    else if r.du < etol ∧ r.dw < etol then
      ⟨true, r.grid, st, iter2⟩
    else
      let st2 :=
        if r.du < etol ∧ 50000 < iter2 then
          (if |r.dw - st.last_w_error| < 1 / 1000000000000000 then
            ⟨r.dw, st.stagnant_count + 1⟩
          else ⟨r.dw, 0⟩)
        else st
      if r.du < etol ∧ 50000 < iter2 ∧ patience cfg.R_target < st2.stagnant_count then
        ⟨true, r.grid, st2, iter2⟩
      else if iter2 < maxIter then
        relax_loop cfg etol maxIter fuel r.grid st2 iter2
      else
        ⟨decide (r.du < acceptance_threshold cfg.R_target etol), r.grid, st2, iter2⟩

/-- relax_until_converge: run the convergence loop from iteration 0 with
the adaptive tolerance derived from the configured Reynolds number.  The
static locals enter as explicit state (they are program-lifetime in the
source). -/
def relax_until_converge (cfg : Config) (g : Grid) (st : ConvStatics) (maxIter : ℕ) :
    LoopResult :=
  relax_loop cfg (effective_tol cfg.R_target) maxIter maxIter g st 0

/-- normalize: divide the stream function by V0*h at every grid node. -/
def normalize_fields (g : Grid) : Grid :=
  ⟨fun i j => if i ≤ Nxmax ∧ j ≤ Nymax then g.u i j / (V0 * h) else g.u i j, g.w⟩

/-- Observable outcome of run_simulation: success flag, whether the
fields were normalized, whether the three exports were produced, the
final fields, and the static locals left for the next run. -/
structure RunResult where
  success : Bool
  normalized : Bool
  exported : Bool
  grid : Grid
  statics : ConvStatics

/-- run_simulation: reset fields, configure Reynolds parameters,
initialize domain edges, run the convergence loop; normalization and the
three exports happen only on success. -/
def run_simulation (re : ℚ) (g : Grid) (st : ConvStatics) : RunResult :=
  let cfg := configure_reynolds re
  let g1 := borders (reset_fields g)
  let r := relax_until_converge cfg g1 st 350000
  if r.success then ⟨true, true, true, normalize_fields r.grid, r.statics⟩
  else ⟨false, false, false, r.grid, r.statics⟩

/-- The multi-Reynolds sweep of main: run every requested Reynolds number
in order, threading the shared field arrays and the static locals from
run to run. -/
def reynolds_sweep : List ℚ → Grid → ConvStatics → List RunResult
  | [], _, _ => []
  | re :: rest, g, st =>
    let r := run_simulation re g st
    r :: reynolds_sweep rest r.grid r.statics

/-! ### Basic facts about the grid geometry and the visit lists -/

theorem is_inside_beam_iff (i j : ℕ) : is_inside_beam i j ↔ 10 ≤ i ∧ i ≤ 18 ∧ j ≤ 8 := by
  unfold is_inside_beam IL T H
  norm_num

theorem mem_interior_pairs (p : ℕ × ℕ) :
    p ∈ interior_pairs ↔ 1 ≤ p.1 ∧ p.1 < Nxmax ∧ 1 ≤ p.2 ∧ p.2 < Nymax := by
  rcases p with ⟨i, j⟩
  simp only [interior_pairs, List.mem_flatMap, List.mem_map, List.mem_range'_1, Prod.mk.injEq,
    Nxmax, Nymax]
  constructor
  · rintro ⟨a, ha, b, hb, hba, hbb⟩
    subst hba; subst hbb
    omega
  · rintro ⟨h1, h2, h3, h4⟩
    exact ⟨i, by omega, j, ⟨by omega, rfl, rfl⟩⟩

/-! ### Write-locality of the sweep steps -/

theorem stream_step_w (cfg : Config) (g : Grid) (p : ℕ × ℕ) :
    (stream_step cfg g p).w = g.w := by
  unfold stream_step
  split <;> rfl

theorem relax_stream_function_w (cfg : Config) (g : Grid) :
    (relax_stream_function cfg g).w = g.w := by
  unfold relax_stream_function
  generalize interior_pairs = l
  induction l generalizing g with
  | nil => rfl
  | cons p t ih => rw [List.foldl_cons, ih, stream_step_w]

theorem vort_step_u (cfg : Config) (g : Grid) (p : ℕ × ℕ) :
    (vort_step cfg g p).u = g.u := by
  unfold vort_step
  split
  · rfl
  · dsimp only
    split <;> rfl

theorem relax_vorticity_u (cfg : Config) (g : Grid) :
    (relax_vorticity cfg g).u = g.u := by
  unfold relax_vorticity
  generalize interior_pairs = l
  induction l generalizing g with
  | nil => rfl
  | cons p t ih => rw [List.foldl_cons, ih, vort_step_u]

theorem stream_step_u_ne (cfg : Config) (g : Grid) (p : ℕ × ℕ) (a b : ℕ)
    (hne : ¬(a = p.1 ∧ b = p.2)) : (stream_step cfg g p).u a b = g.u a b := by
  unfold stream_step
  by_cases hb : is_inside_beam p.1 p.2
  · rw [if_pos hb]
  · rw [if_neg hb]
    exact if_neg hne

theorem vort_step_w_ne (cfg : Config) (g : Grid) (p : ℕ × ℕ) (a b : ℕ)
    (hne : ¬(a = p.1 ∧ b = p.2)) : (vort_step cfg g p).w a b = g.w a b := by
  unfold vort_step
  by_cases hb : is_inside_beam p.1 p.2
  · rw [if_pos hb]
  · rw [if_neg hb]
    dsimp only
    split
    · exact if_neg hne
    · exact if_neg hne

theorem smooth_step_u (g : Grid) (p : ℕ × ℕ) : (smooth_step g p).u = g.u := by
  unfold smooth_step
  split
  · split
    · dsimp only
      split <;> rfl
    · rfl
  · rfl

theorem smooth_step_w_ne (g : Grid) (p : ℕ × ℕ) (a b : ℕ)
    (hne : ¬(a = p.1 ∧ b = p.2)) : (smooth_step g p).w a b = g.w a b := by
  unfold smooth_step
  split
  · split
    · dsimp only
      split
      · exact if_neg hne
      · rfl
    · rfl
  · rfl

theorem smooth_step_w_beam (g : Grid) (p : ℕ × ℕ) (a b : ℕ)
    (hb : is_inside_beam a b) : (smooth_step g p).w a b = g.w a b := by
  by_cases hp : is_inside_beam p.1 p.2
  · unfold smooth_step
    rw [if_neg (by simp [hp])]
  · refine smooth_step_w_ne g p a b ?_
    rintro ⟨rfl, rfl⟩
    exact hp hb

/-! ### Preservation along whole sweeps -/

theorem foldl_stream_u_beam (cfg : Config) (l : List (ℕ × ℕ)) (g : Grid) (i j : ℕ)
    (hb : is_inside_beam i j) :
    (l.foldl (stream_step cfg) g).u i j = g.u i j := by
  induction l generalizing g with
  | nil => rfl
  | cons p t ih =>
    rw [List.foldl_cons, ih]
    by_cases hp : is_inside_beam p.1 p.2
    · unfold stream_step
      rw [if_pos hp]
    · refine stream_step_u_ne cfg g p i j ?_
      rintro ⟨rfl, rfl⟩
      exact hp hb

theorem foldl_vort_w_beam (cfg : Config) (l : List (ℕ × ℕ)) (g : Grid) (i j : ℕ)
    (hb : is_inside_beam i j) :
    (l.foldl (vort_step cfg) g).w i j = g.w i j := by
  induction l generalizing g with
  | nil => rfl
  | cons p t ih =>
    rw [List.foldl_cons, ih]
    by_cases hp : is_inside_beam p.1 p.2
    · unfold vort_step
      rw [if_pos hp]
    · refine vort_step_w_ne cfg g p i j ?_
      rintro ⟨rfl, rfl⟩
      exact hp hb

theorem foldl_vort_w_notmem (cfg : Config) (l : List (ℕ × ℕ)) (g : Grid) (i j : ℕ)
    (hnm : (i, j) ∉ l) :
    (l.foldl (vort_step cfg) g).w i j = g.w i j := by
  induction l generalizing g with
  | nil => rfl
  | cons p t ih =>
    rw [List.foldl_cons, ih _ (fun hm => hnm (List.mem_cons_of_mem p hm))]
    refine vort_step_w_ne cfg g p i j ?_
    rintro ⟨rfl, rfl⟩
    exact hnm (by simp)

theorem foldl_smooth_w_beam (l : List (ℕ × ℕ)) (g : Grid) (i j : ℕ)
    (hb : is_inside_beam i j) :
    (l.foldl smooth_step g).w i j = g.w i j := by
  induction l generalizing g with
  | nil => rfl
  | cons p t ih => rw [List.foldl_cons, ih, smooth_step_w_beam g p i j hb]

theorem foldl_smooth_u (l : List (ℕ × ℕ)) (g : Grid) :
    (l.foldl smooth_step g).u = g.u := by
  induction l generalizing g with
  | nil => rfl
  | cons p t ih => rw [List.foldl_cons, ih, smooth_step_u]

theorem smooth_pass_u (cfg : Config) (g : Grid) : (smooth_pass cfg g).u = g.u := by
  unfold smooth_pass
  split
  · split
    · exact foldl_smooth_u _ g
    · rfl
  · rfl

theorem smooth_pass_w_beam (cfg : Config) (g : Grid) (i j : ℕ)
    (hb : is_inside_beam i j) : (smooth_pass cfg g).w i j = g.w i j := by
  unfold smooth_pass
  split
  · split
    · exact foldl_smooth_w_beam _ g i j hb
    · rfl
  · rfl

theorem smooth_pass_low (cfg : Config) (g : Grid) (hlt : cfg.R_target < 5) :
    smooth_pass cfg g = g := by
  unfold smooth_pass
  rw [if_neg (not_le.mpr hlt)]

/-! ### Pointwise descriptions of the obstacle-surface enforcement stages -/

theorem clear_beam_u (g : Grid) (i j : ℕ) :
    (clear_beam g).u i j = if is_inside_beam i j then 0 else g.u i j := by
  unfold clear_beam is_inside_beam
  dsimp only
  by_cases hb : IL ≤ i ∧ i ≤ IL + T ∧ j ≤ H
  · rw [if_pos hb, if_pos (by simp only [IL, T, H, Nxmax, Nymax] at *; omega)]
  · rw [if_neg hb, if_neg (by simp only [IL, T, H, Nxmax, Nymax] at *; omega)]

theorem clear_beam_w (g : Grid) (i j : ℕ) :
    (clear_beam g).w i j = if is_inside_beam i j then 0 else g.w i j := by
  unfold clear_beam is_inside_beam
  dsimp only
  by_cases hb : IL ≤ i ∧ i ≤ IL + T ∧ j ≤ H
  · rw [if_pos hb, if_pos (by simp only [IL, T, H, Nxmax, Nymax] at *; omega)]
  · rw [if_neg hb, if_neg (by simp only [IL, T, H, Nxmax, Nymax] at *; omega)]

theorem front_face_u (g : Grid) : (front_face g).u = g.u := rfl

theorem back_face_u (g : Grid) : (back_face g).u = g.u := rfl

theorem top_face_u (g : Grid) : (top_face g).u = g.u := rfl

theorem left_corner_u (cfg : Config) (g : Grid) : (left_corner cfg g).u = g.u := by
  unfold left_corner
  split <;> rfl

theorem right_corner_u (cfg : Config) (g : Grid) : (right_corner cfg g).u = g.u := by
  unfold right_corner
  split <;> rfl

theorem front_face_w (g : Grid) (i j : ℕ) :
    (front_face g).w i j =
      if i = IL - 1 ∧ 1 ≤ j ∧ j ≤ H then -2 * g.u (IL - 2) j / (h * h) else g.w i j := by
  unfold front_face
  dsimp only
  by_cases hb : i = IL - 1 ∧ 1 ≤ j ∧ j ≤ H
  · rw [if_pos hb, if_pos (by simp only [IL, H, Nymax] at *; omega)]
  · rw [if_neg hb, if_neg (by simp only [IL, H, Nymax] at *; omega)]

theorem back_face_w (g : Grid) (i j : ℕ) :
    (back_face g).w i j =
      if i = IL + T + 1 ∧ 1 ≤ j ∧ j ≤ H then -2 * g.u (IL + T + 2) j / (h * h)
      else g.w i j := by
  unfold back_face
  dsimp only
  by_cases hb : i = IL + T + 1 ∧ 1 ≤ j ∧ j ≤ H
  · rw [if_pos hb, if_pos (by simp only [IL, T, H, Nxmax, Nymax] at *; omega)]
  · rw [if_neg hb, if_neg (by simp only [IL, T, H, Nxmax, Nymax] at *; omega)]

theorem top_face_w (g : Grid) (i j : ℕ) :
    (top_face g).w i j =
      if j = H + 1 ∧ IL ≤ i ∧ i ≤ IL + T then -2 * g.u i (H + 2) / (h * h)
      else g.w i j := by
  unfold top_face
  dsimp only
  by_cases hb : j = H + 1 ∧ IL ≤ i ∧ i ≤ IL + T
  · rw [if_pos hb, if_pos (by simp only [IL, T, H, Nxmax, Nymax] at *; omega)]
  · rw [if_neg hb, if_neg (by simp only [IL, T, H, Nxmax, Nymax] at *; omega)]

theorem left_corner_w (cfg : Config) (g : Grid) (i j : ℕ) :
    (left_corner cfg g).w i j =
      if i = IL - 1 ∧ j = H + 1 then
        corner_blend cfg.R_target (-2 * g.u (IL - 2) (H + 1) / (h * h))
          (-2 * g.u (IL - 1) (H + 2) / (h * h))
      else g.w i j := by
  unfold left_corner
  rw [if_pos (by decide : 0 < IL ∧ H + 1 ≤ Nymax)]

theorem right_corner_w (cfg : Config) (g : Grid) (i j : ℕ) :
    (right_corner cfg g).w i j =
      if i = IL + T + 1 ∧ j = H + 1 then
        corner_blend cfg.R_target (-2 * g.u (IL + T + 2) (H + 1) / (h * h))
          (-2 * g.u (IL + T + 1) (H + 2) / (h * h))
      else g.w i j := by
  unfold right_corner
  rw [if_pos (by decide : IL + T + 1 ≤ Nxmax ∧ H + 1 ≤ Nymax)]

theorem beam_core_u (cfg : Config) (g : Grid) (i j : ℕ) :
    (beam_core cfg g).u i j = if is_inside_beam i j then 0 else g.u i j := by
  unfold beam_core
  rw [right_corner_u, left_corner_u, top_face_u, back_face_u, front_face_u, clear_beam_u]

theorem beam_boundaries_u (cfg : Config) (g : Grid) (i j : ℕ) :
    (beam_boundaries cfg g).u i j = if is_inside_beam i j then 0 else g.u i j := by
  unfold beam_boundaries
  rw [smooth_pass_u, beam_core_u]

/-- Master description of steps 1-3 of beam_boundaries: later writes shadow
earlier ones, all wall-vorticity reads refer to the caller's stream
function. -/
theorem beam_core_w (cfg : Config) (g : Grid) (i j : ℕ) :
    (beam_core cfg g).w i j =
      if i = IL + T + 1 ∧ j = H + 1 then
        corner_blend cfg.R_target (-2 * g.u (IL + T + 2) (H + 1) / (h * h))
          (-2 * g.u (IL + T + 1) (H + 2) / (h * h))
      else if i = IL - 1 ∧ j = H + 1 then
        corner_blend cfg.R_target (-2 * g.u (IL - 2) (H + 1) / (h * h))
          (-2 * g.u (IL - 1) (H + 2) / (h * h))
      else if j = H + 1 ∧ IL ≤ i ∧ i ≤ IL + T then -2 * g.u i (H + 2) / (h * h)
      else if i = IL + T + 1 ∧ 1 ≤ j ∧ j ≤ H then -2 * g.u (IL + T + 2) j / (h * h)
      else if i = IL - 1 ∧ 1 ≤ j ∧ j ≤ H then -2 * g.u (IL - 2) j / (h * h)
      else if is_inside_beam i j then 0
      else g.w i j := by
  unfold beam_core
  simp only [right_corner_w, left_corner_w, top_face_w, back_face_w, front_face_w,
    clear_beam_w, left_corner_u, top_face_u, back_face_u, front_face_u, clear_beam_u,
    is_inside_beam_iff, IL, T, H]
  simp

theorem beam_boundaries_w_inside (cfg : Config) (g : Grid) (i j : ℕ)
    (hb : is_inside_beam i j) : (beam_boundaries cfg g).w i j = 0 := by
  unfold beam_boundaries
  rw [smooth_pass_w_beam cfg _ i j hb, beam_core_w]
  rw [is_inside_beam_iff] at hb
  simp only [IL, T, H]
  rw [if_neg (by omega), if_neg (by omega), if_neg (by omega), if_neg (by omega),
    if_neg (by omega), if_pos]
  rw [is_inside_beam_iff]
  omega

/-! ### The shear profile established by borders -/

/-- The uniform-shear inflow profile with the obstacle blanked out. -/
def shear_profile (i j : ℕ) : ℚ := if is_inside_beam i j then 0 else (j : ℚ) * V0

/-- A grid realizes the shear profile with zero vorticity at every node. -/
def ShearState (g : Grid) : Prop :=
  ∀ i j, i ≤ Nxmax → j ≤ Nymax → g.u i j = shear_profile i j ∧ g.w i j = 0

theorem shearState_init (g : Grid) : ShearState (borders_init g) := by
  intro i j hi hj
  unfold borders_init
  constructor
  · dsimp only
    rw [if_pos ⟨hi, hj⟩]
    rfl
  · dsimp only
    rw [if_pos ⟨hi, hj⟩]

theorem shearState_surface (g : Grid) (hg : ShearState g) : ShearState (borders_surface g) := by
  intro i j hi hj
  unfold borders_surface
  constructor
  · dsimp only
    by_cases hc : i ≤ Nxmax ∧ j = Nymax ∧ ¬ is_inside_beam i Nymax
    · rw [if_pos hc]
      obtain ⟨hc1, hc2, hc3⟩ := hc
      subst hc2
      rw [(hg i (Nymax - 1) hi (by simp only [Nymax]; omega)).1]
      unfold shear_profile
      rw [if_neg hc3, if_neg (by rw [is_inside_beam_iff]; simp only [Nymax]; omega)]
      simp only [Nymax, V0, h]
      norm_num
    · rw [if_neg hc]
      exact (hg i j hi hj).1
  · dsimp only
    by_cases hc : i ≤ Nxmax ∧ j = Nymax - 1 ∧ ¬ is_inside_beam i Nymax ∧ 1 < Nymax
    · rw [if_pos hc]
    · rw [if_neg hc]
      exact (hg i j hi hj).2

theorem shearState_inlet (g : Grid) (hg : ShearState g) : ShearState (borders_inlet g) := by
  intro i j hi hj
  unfold borders_inlet
  constructor
  · dsimp only
    by_cases hc : i = 1 ∧ j ≤ Nymax ∧ ¬ is_inside_beam 0 j ∧ ¬ is_inside_beam 1 j
    · rw [if_pos hc]
      obtain ⟨hc1, hc2, hc3, hc4⟩ := hc
      subst hc1
      rw [(hg 0 j (by simp only [Nxmax]; omega) hj).1]
      unfold shear_profile
      rw [if_neg hc3, if_neg hc4]
    · rw [if_neg hc]
      exact (hg i j hi hj).1
  · dsimp only
    by_cases hc : i = 0 ∧ j ≤ Nymax ∧ ¬ is_inside_beam 0 j ∧ ¬ is_inside_beam 1 j
    · rw [if_pos hc]
    · rw [if_neg hc]
      exact (hg i j hi hj).2

theorem shearState_center (g : Grid) (hg : ShearState g) : ShearState (borders_center g) := by
  intro i j hi hj
  unfold borders_center
  constructor
  · dsimp only
    by_cases hc : j = 0 ∧ i ≤ Nxmax ∧ ¬ is_inside_beam i 0
    · rw [if_pos hc]
      obtain ⟨hc1, hc2, hc3⟩ := hc
      subst hc1
      unfold shear_profile
      rw [if_neg hc3]
      norm_num
    · rw [if_neg hc]
      exact (hg i j hi hj).1
  · dsimp only
    by_cases hc : j = 0 ∧ i ≤ Nxmax ∧ ¬ is_inside_beam i 0
    · rw [if_pos hc]
    · rw [if_neg hc]
      exact (hg i j hi hj).2

theorem shearState_outlet (g : Grid) (hg : ShearState g) : ShearState (borders_outlet g) := by
  intro i j hi hj
  unfold borders_outlet
  constructor
  · dsimp only
    by_cases hc : i = Nxmax ∧ 1 ≤ j ∧ j < Nymax ∧
        ¬ is_inside_beam Nxmax j ∧ ¬ is_inside_beam (Nxmax - 1) j
    · rw [if_pos hc]
      obtain ⟨hc1, hc2, hc3, hc4, hc5⟩ := hc
      subst hc1
      rw [(hg (Nxmax - 1) j (by simp only [Nxmax]; omega) hj).1]
      unfold shear_profile
      rw [if_neg hc4, if_neg hc5]
    · rw [if_neg hc]
      exact (hg i j hi hj).1
  · dsimp only
    by_cases hc : i = Nxmax ∧ 1 ≤ j ∧ j < Nymax ∧
        ¬ is_inside_beam Nxmax j ∧ ¬ is_inside_beam (Nxmax - 1) j
    · rw [if_pos hc]
      exact (hg (Nxmax - 1) j (by simp only [Nxmax]; omega) hj).2
    · rw [if_neg hc]
      exact (hg i j hi hj).2

theorem shearState_borders (g : Grid) : ShearState (borders g) :=
  shearState_outlet _ (shearState_center _ (shearState_inlet _
    (shearState_surface _ (shearState_init g))))

/-! ### Zero states are fixed by every phase -/

/-- Both fields vanish everywhere. -/
def ZeroGrid (g : Grid) : Prop := ∀ i j, g.u i j = 0 ∧ g.w i j = 0

theorem corner_blend_zero (rt : ℚ) : corner_blend rt 0 0 = 0 := by
  unfold corner_blend
  split_ifs <;> norm_num

theorem zeroGrid_stream_step (cfg : Config) (g : Grid) (p : ℕ × ℕ) (hz : ZeroGrid g) :
    ZeroGrid (stream_step cfg g p) := by
  have hu : ∀ a b, g.u a b = 0 := fun a b => (hz a b).1
  have hw : ∀ a b, g.w a b = 0 := fun a b => (hz a b).2
  intro a b
  unfold stream_step
  by_cases hb : is_inside_beam p.1 p.2
  · rw [if_pos hb]
    exact hz a b
  · rw [if_neg hb]
    refine ⟨?_, hw a b⟩
    dsimp only
    by_cases he : a = p.1 ∧ b = p.2
    · rw [if_pos he]
      simp [hu, hw]
    · rw [if_neg he]
      exact hu a b

theorem zeroGrid_vort_step (cfg : Config) (g : Grid) (p : ℕ × ℕ) (hz : ZeroGrid g) :
    ZeroGrid (vort_step cfg g p) := by
  have hu : ∀ a b, g.u a b = 0 := fun a b => (hz a b).1
  have hw : ∀ a b, g.w a b = 0 := fun a b => (hz a b).2
  intro a b
  unfold vort_step
  by_cases hb : is_inside_beam p.1 p.2
  · rw [if_pos hb]
    exact hz a b
  · rw [if_neg hb]
    dsimp only
    split
    · refine ⟨hu a b, ?_⟩
      dsimp only
      by_cases he : a = p.1 ∧ b = p.2
      · rw [if_pos he]
        simp [hu, hw]
      · rw [if_neg he]
        exact hw a b
    · refine ⟨hu a b, ?_⟩
      dsimp only
      by_cases he : a = p.1 ∧ b = p.2
      · rw [if_pos he]
        simp [hu, hw]
      · rw [if_neg he]
        exact hw a b

theorem zeroGrid_smooth_step (g : Grid) (p : ℕ × ℕ) (hz : ZeroGrid g) :
    ZeroGrid (smooth_step g p) := by
  have hw : ∀ a b, g.w a b = 0 := fun a b => (hz a b).2
  unfold smooth_step
  split
  · rw [hw p.1 p.2]
    norm_num
    exact hz
  · exact hz

theorem zeroGrid_foldl_stream (cfg : Config) (l : List (ℕ × ℕ)) (g : Grid) (hz : ZeroGrid g) :
    ZeroGrid (l.foldl (stream_step cfg) g) := by
  induction l generalizing g with
  | nil => exact hz
  | cons p t ih => exact ih _ (zeroGrid_stream_step cfg g p hz)

theorem zeroGrid_foldl_vort (cfg : Config) (l : List (ℕ × ℕ)) (g : Grid) (hz : ZeroGrid g) :
    ZeroGrid (l.foldl (vort_step cfg) g) := by
  induction l generalizing g with
  | nil => exact hz
  | cons p t ih => exact ih _ (zeroGrid_vort_step cfg g p hz)

theorem zeroGrid_foldl_smooth (l : List (ℕ × ℕ)) (g : Grid) (hz : ZeroGrid g) :
    ZeroGrid (l.foldl smooth_step g) := by
  induction l generalizing g with
  | nil => exact hz
  | cons p t ih => exact ih _ (zeroGrid_smooth_step g p hz)

theorem zeroGrid_beam_boundaries (cfg : Config) (g : Grid) (hz : ZeroGrid g) :
    ZeroGrid (beam_boundaries cfg g) := by
  have hu : ∀ a b, g.u a b = 0 := fun a b => (hz a b).1
  have hw : ∀ a b, g.w a b = 0 := fun a b => (hz a b).2
  have hcore : ZeroGrid (beam_core cfg g) := by
    intro a b
    rw [beam_core_u, beam_core_w]
    constructor
    · split <;> simp [hu]
    · simp [hu, hw, corner_blend_zero]
  unfold beam_boundaries smooth_pass
  split
  · split
    · exact zeroGrid_foldl_smooth _ _ hcore
    · exact hcore
  · exact hcore

/-! ### Bounds on the change-norm fold -/

/-- Generic step of the change-norm loop. -/
def maxd_step (f1 f2 : ℕ × ℕ → ℚ) (acc : ℚ × ℚ) (p : ℕ × ℕ) : ℚ × ℚ :=
  if is_inside_beam p.1 p.2 then acc else (max acc.1 (f1 p), max acc.2 (f2 p))

theorem max_diffs_eq_foldl (gNew : Grid) (uOld wOld : ℕ → ℕ → ℚ) :
    max_diffs gNew uOld wOld =
      interior_pairs.foldl
        (maxd_step (fun p => |gNew.u p.1 p.2 - uOld p.1 p.2|)
          (fun p => |gNew.w p.1 p.2 - wOld p.1 p.2|)) (0, 0) := rfl

theorem maxd_step_le (f1 f2 : ℕ × ℕ → ℚ) (acc : ℚ × ℚ) (p : ℕ × ℕ) :
    acc.1 ≤ (maxd_step f1 f2 acc p).1 ∧ acc.2 ≤ (maxd_step f1 f2 acc p).2 := by
  unfold maxd_step
  split
  · exact ⟨le_refl _, le_refl _⟩
  · exact ⟨le_max_left _ _, le_max_left _ _⟩

theorem maxd_foldl_acc_le (f1 f2 : ℕ × ℕ → ℚ) (l : List (ℕ × ℕ)) (acc : ℚ × ℚ) :
    acc.1 ≤ (l.foldl (maxd_step f1 f2) acc).1 ∧ acc.2 ≤ (l.foldl (maxd_step f1 f2) acc).2 := by
  induction l generalizing acc with
  | nil => exact ⟨le_refl _, le_refl _⟩
  | cons p t ih =>
    rw [List.foldl_cons]
    exact ⟨le_trans (maxd_step_le f1 f2 acc p).1 (ih (maxd_step f1 f2 acc p)).1,
      le_trans (maxd_step_le f1 f2 acc p).2 (ih (maxd_step f1 f2 acc p)).2⟩

theorem maxd_foldl_le_of_mem (f1 f2 : ℕ × ℕ → ℚ) (l : List (ℕ × ℕ)) (p : ℕ × ℕ)
    (hp : p ∈ l) (hb : ¬ is_inside_beam p.1 p.2) :
    ∀ acc : ℚ × ℚ, f1 p ≤ (l.foldl (maxd_step f1 f2) acc).1 ∧
      f2 p ≤ (l.foldl (maxd_step f1 f2) acc).2 := by
  induction l with
  | nil => cases hp
  | cons q t ih =>
    intro acc
    rw [List.foldl_cons]
    rcases List.mem_cons.mp hp with heq | hmem
    · subst heq
      refine ⟨le_trans ?_ (maxd_foldl_acc_le f1 f2 t _).1,
        le_trans ?_ (maxd_foldl_acc_le f1 f2 t _).2⟩
      · unfold maxd_step
        rw [if_neg hb]
        exact le_max_right _ _
      · unfold maxd_step
        rw [if_neg hb]
        exact le_max_right _ _
    · exact ih hmem _

theorem maxd_foldl_le_bound (f1 f2 : ℕ × ℕ → ℚ) (l : List (ℕ × ℕ)) (c1 c2 : ℚ)
    (hf1 : ∀ p ∈ l, ¬ is_inside_beam p.1 p.2 → f1 p ≤ c1)
    (hf2 : ∀ p ∈ l, ¬ is_inside_beam p.1 p.2 → f2 p ≤ c2) :
    ∀ acc : ℚ × ℚ, acc.1 ≤ c1 → acc.2 ≤ c2 →
      (l.foldl (maxd_step f1 f2) acc).1 ≤ c1 ∧ (l.foldl (maxd_step f1 f2) acc).2 ≤ c2 := by
  induction l with
  | nil => exact fun acc h1 h2 => ⟨h1, h2⟩
  | cons q t ih =>
    intro acc h1 h2
    rw [List.foldl_cons]
    refine ih (fun p hp => hf1 p (List.mem_cons_of_mem q hp))
      (fun p hp => hf2 p (List.mem_cons_of_mem q hp)) _ ?_ ?_
    · unfold maxd_step
      split
      · exact h1
      · exact max_le h1 (hf1 q (List.mem_cons_self q t) (by assumption))
    · unfold maxd_step
      split
      · exact h2
      · exact max_le h2 (hf2 q (List.mem_cons_self q t) (by assumption))

/-! ### The iteration body on states that boundary enforcement zeroes -/

theorem iteration_body_grid (cfg : Config) (g : Grid) :
    (iteration_body cfg g).grid =
      beam_boundaries cfg
        (relax_vorticity cfg (relax_stream_function cfg (beam_boundaries cfg g))) := rfl

theorem iteration_body_du (cfg : Config) (g : Grid) :
    (iteration_body cfg g).du =
      (max_diffs
        (beam_boundaries cfg
          (relax_vorticity cfg (relax_stream_function cfg (beam_boundaries cfg g))))
        (beam_boundaries cfg g).u (beam_boundaries cfg g).w).1 := rfl

theorem iteration_body_dw (cfg : Config) (g : Grid) :
    (iteration_body cfg g).dw =
      (max_diffs
        (beam_boundaries cfg
          (relax_vorticity cfg (relax_stream_function cfg (beam_boundaries cfg g))))
        (beam_boundaries cfg g).u (beam_boundaries cfg g).w).2 := rfl

theorem iteration_body_of_bb_zero (cfg : Config) (g : Grid)
    (h1 : ZeroGrid (beam_boundaries cfg g)) :
    (iteration_body cfg g).du = 0 ∧ (iteration_body cfg g).dw = 0 ∧
      ZeroGrid (iteration_body cfg g).grid := by
  have h2 : ZeroGrid (relax_stream_function cfg (beam_boundaries cfg g)) :=
    zeroGrid_foldl_stream cfg interior_pairs _ h1
  have h3 : ZeroGrid (relax_vorticity cfg (relax_stream_function cfg (beam_boundaries cfg g))) :=
    zeroGrid_foldl_vort cfg interior_pairs _ h2
  have h4 : ZeroGrid (beam_boundaries cfg
      (relax_vorticity cfg (relax_stream_function cfg (beam_boundaries cfg g)))) :=
    zeroGrid_beam_boundaries cfg _ h3
  have hdu : (iteration_body cfg g).du = 0 := by
    rw [iteration_body_du, max_diffs_eq_foldl]
    refine le_antisymm ?_ ?_
    · refine (maxd_foldl_le_bound _ _ interior_pairs 0 0 ?_ ?_ (0, 0) (le_refl 0) (le_refl 0)).1
      · intro p _ _
        rw [(h4 p.1 p.2).1, (h1 p.1 p.2).1]
        norm_num
      · intro p _ _
        rw [(h4 p.1 p.2).2, (h1 p.1 p.2).2]
        norm_num
    · exact (maxd_foldl_acc_le _ _ interior_pairs (0, 0)).1
  have hdw : (iteration_body cfg g).dw = 0 := by
    rw [iteration_body_dw, max_diffs_eq_foldl]
    refine le_antisymm ?_ ?_
    · refine (maxd_foldl_le_bound _ _ interior_pairs 0 0 ?_ ?_ (0, 0) (le_refl 0) (le_refl 0)).2
      · intro p _ _
        rw [(h4 p.1 p.2).1, (h1 p.1 p.2).1]
        norm_num
      · intro p _ _
        rw [(h4 p.1 p.2).2, (h1 p.1 p.2).2]
        norm_num
    · exact (maxd_foldl_acc_le _ _ interior_pairs (0, 0)).2
  exact ⟨hdu, hdw, h4⟩

/-! ### One-step behavior of the convergence loop -/

theorem relax_loop_diverge_step (cfg : Config) (etol : ℚ) (maxIter fuel iter : ℕ)
    (g : Grid) (st : ConvStatics)
    (hd : divergence_threshold cfg.R_target < (iteration_body cfg g).du ∨
      divergence_threshold cfg.R_target < (iteration_body cfg g).dw) :
    relax_loop cfg etol maxIter (fuel + 1) g st iter =
      ⟨false, (iteration_body cfg g).grid, st, iter + 1⟩ := by
  simp only [relax_loop]
  rw [if_pos hd]

theorem relax_until_converge_diverge (cfg : Config) (g : Grid) (st : ConvStatics)
    (hd : divergence_threshold cfg.R_target < (iteration_body cfg g).du ∨
      divergence_threshold cfg.R_target < (iteration_body cfg g).dw) :
    relax_until_converge cfg g st 350000 =
      ⟨false, (iteration_body cfg g).grid, st, 1⟩ := by
  unfold relax_until_converge
  rw [show (350000 : ℕ) = 349999 + 1 from rfl]
  exact relax_loop_diverge_step cfg _ 350000 349999 0 g st hd

/-! ### The first node visited by the vorticity sweep -/

theorem interior_pairs_head : interior_pairs.head? = some (1, 1) := by rfl

set_option maxRecDepth 100000 in
theorem interior_pairs_not_mem_tail : ((1 : ℕ), (1 : ℕ)) ∉ interior_pairs.tail := by decide

theorem interior_pairs_cons : interior_pairs = (1, 1) :: interior_pairs.tail :=
  List.eq_cons_of_mem_head? interior_pairs_head

theorem relax_vorticity_at_11 (cfg : Config) (g : Grid) :
    (relax_vorticity cfg g).w 1 1 = (vort_step cfg g (1, 1)).w 1 1 := by
  unfold relax_vorticity
  rw [interior_pairs_cons, List.foldl_cons]
  exact foldl_vort_w_notmem cfg interior_pairs.tail _ 1 1 interior_pairs_not_mem_tail

theorem vort_step_at_11 (cfg : Config) (g : Grid) :
    (vort_step cfg g (1, 1)).w 1 1 =
      g.w 1 1 + cfg.omega * (0.25 * (g.w 2 1 + g.w 0 1 + g.w 1 2 + g.w 1 0) - g.w 1 1) := by
  unfold vort_step
  rw [if_neg (by decide)]
  dsimp only
  rw [if_pos (by decide : (1 : ℕ) = 1 ∨ (1 : ℕ) = Nxmax - 1 ∨ (1 : ℕ) = 1 ∨ (1 : ℕ) = Nymax - 1)]
  dsimp only
  rw [if_pos ⟨rfl, rfl⟩]

/-! ### beam_boundaries leaves the far field untouched -/

theorem smooth_positions_eq :
    smooth_positions =
      [(8, 8), (8, 9), (8, 10), (9, 8), (9, 9), (9, 10), (10, 8), (10, 9), (10, 10)] := by rfl

theorem foldl_smooth_w_notmem (l : List (ℕ × ℕ)) (g : Grid) (a b : ℕ)
    (hnm : (a, b) ∉ l) : (l.foldl smooth_step g).w a b = g.w a b := by
  induction l generalizing g with
  | nil => rfl
  | cons p t ih =>
    rw [List.foldl_cons, ih _ (fun hm => hnm (List.mem_cons_of_mem p hm))]
    refine smooth_step_w_ne g p a b ?_
    rintro ⟨rfl, rfl⟩
    exact hnm (by simp)

theorem smooth_pass_w_notmem (cfg : Config) (g : Grid) (a b : ℕ)
    (hnm : (a, b) ∉ smooth_positions) : (smooth_pass cfg g).w a b = g.w a b := by
  unfold smooth_pass
  split
  · split
    · exact foldl_smooth_w_notmem _ g a b hnm
    · rfl
  · rfl

/-- Nodes strictly left of the beam region (i < 8) are never written by
obstacle-surface enforcement. -/
theorem beam_boundaries_w_low (cfg : Config) (g : Grid) (a b : ℕ) (ha : a < 8) :
    (beam_boundaries cfg g).w a b = g.w a b := by
  unfold beam_boundaries
  rw [smooth_pass_w_notmem cfg _ a b (by rw [smooth_positions_eq]; simp; omega), beam_core_w]
  simp only [IL, T, H]
  rw [if_neg (by omega), if_neg (by omega), if_neg (by omega), if_neg (by omega),
    if_neg (by omega), if_neg (by rw [is_inside_beam_iff]; omega)]

/-! ### A state that forces immediate divergence of the loop -/

/-- Probe state: zero stream function, one huge vorticity value at the
first interior node visited by the sweeps. -/
def probe_div : Grid :=
  ⟨fun _ _ => 0, fun i j => if i = 1 ∧ j = 1 then 100000 else 0⟩

theorem cfg_half_omega : (configure_reynolds (1 / 2)).omega = 0.1 := by
  unfold configure_reynolds omega_for
  rw [if_pos (by norm_num)]

theorem probe_div_dw : 10000 ≤ (iteration_body (configure_reynolds (1 / 2)) probe_div).dw := by
  set cfg := configure_reynolds (1 / 2) with hcfg
  have hg1w : ∀ a b, a < 8 →
      (beam_boundaries cfg probe_div).w a b = probe_div.w a b :=
    fun a b hab => beam_boundaries_w_low cfg probe_div a b hab
  have hg2w : (relax_stream_function cfg (beam_boundaries cfg probe_div)).w
      = (beam_boundaries cfg probe_div).w := relax_stream_function_w cfg _
  have hg3w : (relax_vorticity cfg (relax_stream_function cfg (beam_boundaries cfg probe_div))).w 1 1
      = 90000 := by
    rw [relax_vorticity_at_11, vort_step_at_11, hg2w]
    rw [hg1w 1 1 (by omega), hg1w 2 1 (by omega), hg1w 0 1 (by omega),
      hg1w 1 2 (by omega), hg1w 1 0 (by omega)]
    have homega : cfg.omega = 0.1 := cfg_half_omega
    rw [homega]
    unfold probe_div
    norm_num
  have hg4w : (beam_boundaries cfg
      (relax_vorticity cfg (relax_stream_function cfg (beam_boundaries cfg probe_div)))).w 1 1
      = 90000 := by
    rw [beam_boundaries_w_low cfg _ 1 1 (by omega), hg3w]
  have hsnap : (beam_boundaries cfg probe_div).w 1 1 = 100000 := by
    rw [hg1w 1 1 (by omega)]
    unfold probe_div
    norm_num
  rw [iteration_body_dw, max_diffs_eq_foldl]
  have hmem : ((1 : ℕ), (1 : ℕ)) ∈ interior_pairs := by
    rw [mem_interior_pairs]
    refine ⟨by omega, ?_, by omega, ?_⟩ <;> simp only [Nxmax, Nymax] <;> omega
  have hnb : ¬ is_inside_beam (1, 1).1 (1, 1).2 := by decide
  refine le_trans ?_ ((maxd_foldl_le_of_mem _ _ interior_pairs (1, 1) hmem hnb) (0, 0)).2
  rw [hg4w, hsnap]
  norm_num

theorem probe_div_diverges :
    divergence_threshold (configure_reynolds (1 / 2)).R_target <
      (iteration_body (configure_reynolds (1 / 2)) probe_div).du ∨
    divergence_threshold (configure_reynolds (1 / 2)).R_target <
      (iteration_body (configure_reynolds (1 / 2)) probe_div).dw := by
  right
  refine lt_of_lt_of_le ?_ probe_div_dw
  unfold divergence_threshold configure_reynolds
  rw [if_neg (by norm_num)]
  norm_num

/-! ### Spike states: a single nonzero vorticity value in an otherwise
zero field -/

attribute [ext] Grid

/-- Zero stream function with a single vorticity spike of size c at
(a0, b0). -/
def spike_at (a0 b0 : ℕ) (c : ℚ) : Grid :=
  ⟨fun _ _ => 0, fun i j => if i = a0 ∧ j = b0 then c else 0⟩

theorem smooth_step_no_spike (g : Grid) (p : ℕ × ℕ) (hs : ¬ 2 < |g.w p.1 p.2|) :
    smooth_step g p = g := by
  unfold smooth_step
  by_cases hg : 0 < p.1 ∧ p.1 < Nxmax ∧ 0 < p.2 ∧ p.2 < Nymax ∧ ¬ is_inside_beam p.1 p.2
  · rw [if_pos hg, if_neg hs]
  · rw [if_neg hg]

/-- Steps 1-3 of beam_boundaries do not move a spike sitting at a node
that no wall-vorticity or corner write covers. -/
theorem beam_core_spike_at (cfg : Config) (a0 b0 : ℕ) (c : ℚ)
    (h1 : ¬(a0 = 19 ∧ b0 = 9)) (h2 : ¬(a0 = 9 ∧ b0 = 9))
    (h3 : ¬(b0 = 9 ∧ 10 ≤ a0 ∧ a0 ≤ 18)) (h4 : ¬(a0 = 19 ∧ 1 ≤ b0 ∧ b0 ≤ 8))
    (h5 : ¬(a0 = 9 ∧ 1 ≤ b0 ∧ b0 ≤ 8)) (h6 : ¬ is_inside_beam a0 b0) :
    beam_core cfg (spike_at a0 b0 c) = spike_at a0 b0 c := by
  rw [is_inside_beam_iff] at h6
  ext a b
  · rw [beam_core_u]
    split
    · rfl
    · rfl
  · rw [beam_core_w]
    simp only [spike_at, IL, T, H, is_inside_beam_iff]
    norm_num [corner_blend_zero]
    split_ifs <;> first | rfl | (exfalso; omega)

theorem smooth_step_spike_fire (a0 b0 : ℕ) (c : ℚ) (hc : 2 < |c|)
    (hg : 0 < a0 ∧ a0 < Nxmax ∧ 0 < b0 ∧ b0 < Nymax ∧ ¬ is_inside_beam a0 b0)
    (hsum : smooth_sum (spike_at a0 b0 c) a0 b0 = (0, 8)) :
    smooth_step (spike_at a0 b0 c) (a0, b0) = spike_at a0 b0 (0.6 * c) := by
  have hw : (spike_at a0 b0 c).w a0 b0 = c := by simp [spike_at]
  unfold smooth_step
  dsimp only
  rw [if_pos hg, hw, if_pos hc, hsum]
  dsimp only
  rw [if_pos (by norm_num : (0 : ℕ) < 8)]
  ext i j
  · rfl
  · dsimp only
    simp only [spike_at]
    split_ifs with h1
    · norm_num
    · rfl

theorem smooth_sum_spike_8_10 (c : ℚ) : smooth_sum (spike_at 8 10 c) 8 10 = (0, 8) := by
  simp [smooth_sum, neighbor_cells, spike_at, is_inside_beam_iff, Nxmax, Nymax]

theorem smooth_sum_spike_20_10 (c : ℚ) : smooth_sum (spike_at 20 10 c) 20 10 = (0, 8) := by
  simp [smooth_sum, neighbor_cells, spike_at, is_inside_beam_iff, Nxmax, Nymax]

/-- At Reynolds numbers triggering the smoothing pass, obstacle-surface
enforcement rescales a lone spike at (8, 10) by 0.6. -/
theorem bb_spike_8_10 (cfg : Config) (h5 : 5 ≤ cfg.R_target) (c : ℚ) (hc : 2 < |c|) :
    beam_boundaries cfg (spike_at 8 10 c) = spike_at 8 10 (0.6 * c) := by
  unfold beam_boundaries
  rw [beam_core_spike_at cfg 8 10 c (by omega) (by omega) (by omega) (by omega) (by omega)
    (by rw [is_inside_beam_iff]; omega)]
  unfold smooth_pass
  rw [if_pos h5, if_pos (by decide)]
  rw [smooth_positions_eq]
  simp only [List.foldl_cons, List.foldl_nil]
  have e1 : smooth_step (spike_at 8 10 c) (8, 8) = spike_at 8 10 c :=
    smooth_step_no_spike _ _ (by norm_num [spike_at])
  have e2 : smooth_step (spike_at 8 10 c) (8, 9) = spike_at 8 10 c :=
    smooth_step_no_spike _ _ (by norm_num [spike_at])
  have e3 : smooth_step (spike_at 8 10 c) (8, 10) = spike_at 8 10 (0.6 * c) :=
    smooth_step_spike_fire 8 10 c hc
      (by refine ⟨by omega, ?_, by omega, ?_, by rw [is_inside_beam_iff]; omega⟩ <;>
        (simp only [Nxmax, Nymax]; omega))
      (smooth_sum_spike_8_10 c)
  have e4 : ∀ p : ℕ × ℕ, ¬(p.1 = 8 ∧ p.2 = 10) →
      smooth_step (spike_at 8 10 (0.6 * c)) p = spike_at 8 10 (0.6 * c) := by
    intro p hp
    refine smooth_step_no_spike _ _ ?_
    have : (spike_at 8 10 (0.6 * c)).w p.1 p.2 = 0 := by
      simp only [spike_at]
      rw [if_neg hp]
    rw [this]
    norm_num
  rw [e1, e2, e3, e4 (9, 8) (by omega), e4 (9, 9) (by omega), e4 (9, 10) (by omega),
    e4 (10, 8) (by omega), e4 (10, 9) (by omega), e4 (10, 10) (by omega)]

/-- The smoothing pass of the source never looks at the right corner: a
spike at (20, 10) survives obstacle-surface enforcement unchanged. -/
theorem bb_spike_20_10 (cfg : Config) (c : ℚ) :
    (beam_boundaries cfg (spike_at 20 10 c)).w 20 10 = c := by
  unfold beam_boundaries
  rw [smooth_pass_w_notmem cfg _ 20 10 (by rw [smooth_positions_eq]; simp)]
  rw [beam_core_spike_at cfg 20 10 c (by omega) (by omega) (by omega) (by omega) (by omega)
    (by rw [is_inside_beam_iff]; omega)]
  simp [spike_at]

/-- Modelled from the spec: the 3x3 block around the top-right corner
(IL+T+1, H+1), which claim C6 says the smoothing pass also visits; the
source has no such block. -/
def smooth_positions_right : List (ℕ × ℕ) :=
  (List.range 3).flatMap fun di => (List.range 3).map fun dj => (IL + T + di, H + dj)

/-- Modelled from the spec: the smoothing pass as claim C6 describes it,
visiting the neighborhoods of BOTH top corners (the source visits only
the left one). -/
def smooth_pass_spec (cfg : Config) (g : Grid) : Grid :=
  if 5 ≤ cfg.R_target then
    (if 1 < IL ∧ H + 2 ≤ Nymax then
      (smooth_positions ++ smooth_positions_right).foldl smooth_step g
    else g)
  else g

/-- Modelled from the spec: obstacle-surface enforcement with the
both-corner smoothing pass of claim C6. -/
def beam_boundaries_spec (cfg : Config) (g : Grid) : Grid :=
  smooth_pass_spec cfg (beam_core cfg g)

theorem smooth_positions_right_eq :
    smooth_positions_right =
      [(18, 8), (18, 9), (18, 10), (19, 8), (19, 9), (19, 10), (20, 8), (20, 9), (20, 10)] := by
  rfl

/-- Under the spec's both-corner smoothing, a spike at (20, 10) would be
rescaled by 0.6. -/
theorem bb_spec_spike_20_10 (cfg : Config) (h5 : 5 ≤ cfg.R_target) (c : ℚ) (hc : 2 < |c|) :
    (beam_boundaries_spec cfg (spike_at 20 10 c)).w 20 10 = 0.6 * c := by
  unfold beam_boundaries_spec smooth_pass_spec
  rw [beam_core_spike_at cfg 20 10 c (by omega) (by omega) (by omega) (by omega) (by omega)
    (by rw [is_inside_beam_iff]; omega)]
  rw [if_pos h5, if_pos (by decide), List.foldl_append]
  rw [smooth_positions_eq, smooth_positions_right_eq]
  simp only [List.foldl_cons, List.foldl_nil]
  have e4 : ∀ p : ℕ × ℕ, ¬(p.1 = 20 ∧ p.2 = 10) →
      smooth_step (spike_at 20 10 c) p = spike_at 20 10 c := by
    intro p hp
    refine smooth_step_no_spike _ _ ?_
    have : (spike_at 20 10 c).w p.1 p.2 = 0 := by
      simp only [spike_at]
      rw [if_neg hp]
    rw [this]
    norm_num
  rw [e4 (8, 8) (by omega), e4 (8, 9) (by omega), e4 (8, 10) (by omega),
    e4 (9, 8) (by omega), e4 (9, 9) (by omega), e4 (9, 10) (by omega),
    e4 (10, 8) (by omega), e4 (10, 9) (by omega), e4 (10, 10) (by omega),
    e4 (18, 8) (by omega), e4 (18, 9) (by omega), e4 (18, 10) (by omega),
    e4 (19, 8) (by omega), e4 (19, 9) (by omega), e4 (19, 10) (by omega),
    e4 (20, 8) (by omega), e4 (20, 9) (by omega)]
  rw [smooth_step_spike_fire 20 10 c hc
    (by refine ⟨by omega, ?_, by omega, ?_, by rw [is_inside_beam_iff]; omega⟩ <;>
      (simp only [Nxmax, Nymax]; omega))
    (smooth_sum_spike_20_10 c)]
  simp [spike_at]

/-! ### A state that boundary enforcement zeroes entirely -/

/-- Probe state: zero stream function and one nonzero vorticity value on
the front-face column, a node that every beam_boundaries call rewrites. -/
def probe_surface : Grid := ⟨fun _ _ => 0, fun i j => if i = 9 ∧ j = 5 then 1 else 0⟩

theorem zeroGrid_smooth_pass (cfg : Config) (g : Grid) (hz : ZeroGrid g) :
    ZeroGrid (smooth_pass cfg g) := by
  unfold smooth_pass
  split
  · split
    · exact zeroGrid_foldl_smooth _ _ hz
    · exact hz
  · exact hz

theorem bb_probe_surface_zero (cfg : Config) : ZeroGrid (beam_boundaries cfg probe_surface) := by
  unfold beam_boundaries
  refine zeroGrid_smooth_pass cfg _ ?_
  intro a b
  constructor
  · rw [beam_core_u]
    split <;> rfl
  · rw [beam_core_w]
    simp only [probe_surface, IL, T, H, is_inside_beam_iff]
    norm_num [corner_blend_zero]
    omega

theorem iteration_body_spec_order_dw (cfg : Config) (g : Grid) :
    (iteration_body_spec_order cfg g).dw =
      (max_diffs
        (beam_boundaries cfg
          (relax_vorticity cfg (relax_stream_function cfg (beam_boundaries cfg g))))
        g.u g.w).2 := rfl

theorem code_order_dw_probe_surface (cfg : Config) :
    (iteration_body cfg probe_surface).dw = 0 :=
  (iteration_body_of_bb_zero cfg probe_surface (bb_probe_surface_zero cfg)).2.1

theorem spec_order_dw_probe_surface (cfg : Config) :
    (iteration_body_spec_order cfg probe_surface).dw = 1 := by
  have h1 := bb_probe_surface_zero cfg
  have h4 : ZeroGrid (beam_boundaries cfg (relax_vorticity cfg
      (relax_stream_function cfg (beam_boundaries cfg probe_surface)))) :=
    zeroGrid_beam_boundaries cfg _
      (zeroGrid_foldl_vort cfg interior_pairs _
        (zeroGrid_foldl_stream cfg interior_pairs _ h1))
  rw [iteration_body_spec_order_dw, max_diffs_eq_foldl]
  refine le_antisymm ?_ ?_
  · refine (maxd_foldl_le_bound _ _ interior_pairs 1 1 ?_ ?_ (0, 0)
      (by norm_num) (by norm_num)).2
    · intro p _ _
      rw [(h4 p.1 p.2).1]
      simp [probe_surface]
    · intro p _ _
      rw [(h4 p.1 p.2).2]
      simp only [probe_surface]
      split_ifs <;> norm_num
  · have hmem : ((9 : ℕ), (5 : ℕ)) ∈ interior_pairs := by
      rw [mem_interior_pairs]
      refine ⟨by omega, ?_, by omega, ?_⟩ <;> (simp only [Nxmax, Nymax]; omega)
    have hnb : ¬ is_inside_beam ((9 : ℕ), (5 : ℕ)).1 ((9 : ℕ), (5 : ℕ)).2 := by
      rw [is_inside_beam_iff]
      omega
    refine le_trans ?_ ((maxd_foldl_le_of_mem _ _ interior_pairs (9, 5) hmem hnb) (0, 0)).2
    rw [(h4 9 5).2]
    simp [probe_surface]

/-! ### When the two iteration orders agree -/

theorem iteration_orders_agree (cfg : Config) (g : Grid)
    (hfix : beam_boundaries cfg g = g) :
    iteration_body cfg g = iteration_body_spec_order cfg g := by
  unfold iteration_body iteration_body_spec_order
  rw [hfix]

/-- The everywhere-zero state. -/
def zero_grid : Grid := ⟨fun _ _ => 0, fun _ _ => 0⟩

theorem zero_grid_zero : ZeroGrid zero_grid := fun _ _ => ⟨rfl, rfl⟩

theorem bb_zero_grid (cfg : Config) : beam_boundaries cfg zero_grid = zero_grid := by
  ext a b
  · exact (zeroGrid_beam_boundaries cfg zero_grid zero_grid_zero a b).1
  · exact (zeroGrid_beam_boundaries cfg zero_grid zero_grid_zero a b).2

/-! ### Idempotence below the smoothing threshold -/

theorem bb_idempotent_low (cfg : Config) (g : Grid) (hlow : cfg.R_target < 5) :
    beam_boundaries cfg (beam_boundaries cfg g) = beam_boundaries cfg g := by
  unfold beam_boundaries
  rw [smooth_pass_low cfg _ hlow, smooth_pass_low cfg _ hlow]
  ext a b
  · simp only [beam_core_u]
    split_ifs <;> rfl
  · simp only [beam_core_w, beam_core_u, is_inside_beam_iff, IL, T, H]
    norm_num
    split_ifs <;> rfl

/-! ### Run-level and sweep-level control flow -/

theorem run_simulation_failure (re : ℚ) (g : Grid) (st : ConvStatics)
    (hfail : (relax_until_converge (configure_reynolds re)
      (borders (reset_fields g)) st 350000).success = false) :
    run_simulation re g st =
      ⟨false, false, false,
        (relax_until_converge (configure_reynolds re) (borders (reset_fields g)) st 350000).grid,
        (relax_until_converge (configure_reynolds re)
          (borders (reset_fields g)) st 350000).statics⟩ := by
  unfold run_simulation
  dsimp only
  rw [hfail]
  simp

theorem reynolds_sweep_cons (re : ℚ) (rest : List ℚ) (g : Grid) (st : ConvStatics) :
    reynolds_sweep (re :: rest) g st =
      run_simulation re g st ::
        reynolds_sweep rest (run_simulation re g st).grid (run_simulation re g st).statics := rfl

theorem reynolds_sweep_length (l : List ℚ) :
    ∀ (g : Grid) (st : ConvStatics), (reynolds_sweep l g st).length = l.length := by
  induction l with
  | nil => intro g st; rfl
  | cons re rest ih =>
    intro g st
    rw [reynolds_sweep_cons, List.length_cons, List.length_cons, ih]

/-! ### The value written by one smoothing position -/

theorem smooth_step_value (g : Grid) (p : ℕ × ℕ)
    (hg : 0 < p.1 ∧ p.1 < Nxmax ∧ 0 < p.2 ∧ p.2 < Nymax ∧ ¬ is_inside_beam p.1 p.2)
    (hspike : 2 < |g.w p.1 p.2|) (hcnt : 0 < (smooth_sum g p.1 p.2).2) :
    (smooth_step g p).w p.1 p.2 =
      0.6 * g.w p.1 p.2 +
        0.4 * ((smooth_sum g p.1 p.2).1 / ((smooth_sum g p.1 p.2).2 : ℚ)) := by
  unfold smooth_step
  rw [if_pos hg]
  dsimp only
  rw [if_pos hspike, if_pos hcnt]
  dsimp only
  rw [if_pos ⟨rfl, rfl⟩]

/-! ## Claim theorems -/

/-- C1: after every beam_boundaries call, every node inside the obstacle
rectangle carries u = 0 and w = 0; the wall-vorticity, corner and
smoothing steps write only nodes outside the obstacle (they leave the
fields unchanged on obstacle nodes); and both relaxation sweeps skip
obstacle-interior nodes entirely (they leave both fields unchanged
there). -/
theorem C1_obstacle_invariant (cfg : Config) (g : Grid) (i j : ℕ)
    (hb : is_inside_beam i j) :
    (beam_boundaries cfg g).u i j = 0 ∧ (beam_boundaries cfg g).w i j = 0 ∧
    (front_face g).w i j = g.w i j ∧ (back_face g).w i j = g.w i j ∧
    (top_face g).w i j = g.w i j ∧ (left_corner cfg g).w i j = g.w i j ∧
    (right_corner cfg g).w i j = g.w i j ∧ (smooth_pass cfg g).w i j = g.w i j ∧
    (front_face g).u i j = g.u i j ∧ (back_face g).u i j = g.u i j ∧
    (top_face g).u i j = g.u i j ∧ (left_corner cfg g).u i j = g.u i j ∧
    (right_corner cfg g).u i j = g.u i j ∧ (smooth_pass cfg g).u i j = g.u i j ∧
    (relax_stream_function cfg g).u i j = g.u i j ∧
    (relax_stream_function cfg g).w i j = g.w i j ∧
    (relax_vorticity cfg g).u i j = g.u i j ∧
    (relax_vorticity cfg g).w i j = g.w i j := by
  have hb8 := (is_inside_beam_iff i j).mp hb
  refine ⟨?_, beam_boundaries_w_inside cfg g i j hb, ?_, ?_, ?_, ?_, ?_,
    smooth_pass_w_beam cfg g i j hb, rfl, rfl, rfl, ?_, ?_, ?_, ?_, ?_, ?_, ?_⟩
  · rw [beam_boundaries_u, if_pos hb]
  · rw [front_face_w, if_neg (by simp only [IL, H]; omega)]
  · rw [back_face_w, if_neg (by simp only [IL, T, H]; omega)]
  · rw [top_face_w, if_neg (by simp only [IL, T, H]; omega)]
  · rw [left_corner_w, if_neg (by simp only [IL, H]; omega)]
  · rw [right_corner_w, if_neg (by simp only [IL, T, H]; omega)]
  · rw [left_corner_u]
  · rw [right_corner_u]
  · rw [smooth_pass_u]
  · exact foldl_stream_u_beam cfg interior_pairs g i j hb
  · rw [relax_stream_function_w]
  · rw [relax_vorticity_u]
  · exact foldl_vort_w_beam cfg interior_pairs g i j hb

/-- Witness for C1 at the obstacle node (12, 3), with the smoothing pass
active (target Reynolds number 5). -/
theorem C1_obstacle_invariant_witness :
    is_inside_beam 12 3 ∧
      ((beam_boundaries (configure_reynolds 5) probe_div).u 12 3 = 0 ∧
       (beam_boundaries (configure_reynolds 5) probe_div).w 12 3 = 0 ∧
       (front_face probe_div).w 12 3 = probe_div.w 12 3 ∧
       (back_face probe_div).w 12 3 = probe_div.w 12 3 ∧
       (top_face probe_div).w 12 3 = probe_div.w 12 3 ∧
       (left_corner (configure_reynolds 5) probe_div).w 12 3 = probe_div.w 12 3 ∧
       (right_corner (configure_reynolds 5) probe_div).w 12 3 = probe_div.w 12 3 ∧
       (smooth_pass (configure_reynolds 5) probe_div).w 12 3 = probe_div.w 12 3 ∧
       (front_face probe_div).u 12 3 = probe_div.u 12 3 ∧
       (back_face probe_div).u 12 3 = probe_div.u 12 3 ∧
       (top_face probe_div).u 12 3 = probe_div.u 12 3 ∧
       (left_corner (configure_reynolds 5) probe_div).u 12 3 = probe_div.u 12 3 ∧
       (right_corner (configure_reynolds 5) probe_div).u 12 3 = probe_div.u 12 3 ∧
       (smooth_pass (configure_reynolds 5) probe_div).u 12 3 = probe_div.u 12 3 ∧
       (relax_stream_function (configure_reynolds 5) probe_div).u 12 3 = probe_div.u 12 3 ∧
       (relax_stream_function (configure_reynolds 5) probe_div).w 12 3 = probe_div.w 12 3 ∧
       (relax_vorticity (configure_reynolds 5) probe_div).u 12 3 = probe_div.u 12 3 ∧
       (relax_vorticity (configure_reynolds 5) probe_div).w 12 3 = probe_div.w 12 3) :=
  ⟨by rw [is_inside_beam_iff]; omega,
   C1_obstacle_invariant (configure_reynolds 5) probe_div 12 3
     (by rw [is_inside_beam_iff]; omega)⟩

/-- C10: after reset_fields and borders, the vorticity vanishes at every
grid node, the stream function vanishes at every obstacle node, and the
stream function equals the shear profile j*V0 at every node outside the
obstacle (so the top-row extrapolation, the inlet copy and the outlet
copy all reproduce the same profile with h = 1). -/
theorem C10_borders_profile (g : Grid) (i j : ℕ) (hi : i ≤ Nxmax) (hj : j ≤ Nymax) :
    (borders (reset_fields g)).w i j = 0 ∧
    (is_inside_beam i j → (borders (reset_fields g)).u i j = 0) ∧
    (¬ is_inside_beam i j → (borders (reset_fields g)).u i j = (j : ℚ) * V0) := by
  have hs := shearState_borders (reset_fields g) i j hi hj
  refine ⟨hs.2, ?_, ?_⟩
  · intro hb
    rw [hs.1]
    unfold shear_profile
    rw [if_pos hb]
  · intro hb
    rw [hs.1]
    unfold shear_profile
    rw [if_neg hb]

/-- Witness for C10 at the top-row outlet-corner node (160, 30). -/
theorem C10_borders_profile_witness :
    (160 : ℕ) ≤ Nxmax ∧ (30 : ℕ) ≤ Nymax ∧
      ((borders (reset_fields probe_div)).w 160 30 = 0 ∧
       (is_inside_beam 160 30 → (borders (reset_fields probe_div)).u 160 30 = 0) ∧
       (¬ is_inside_beam 160 30 →
         (borders (reset_fields probe_div)).u 160 30 = ((30 : ℕ) : ℚ) * V0)) :=
  ⟨by simp [Nxmax], by simp [Nymax],
   C10_borders_profile probe_div 160 30 (by simp [Nxmax]) (by simp [Nymax])⟩

/-- C8: configure_reynolds is a pure mapping re ↦ (nu, omega) with
nu = V0*h/re, omega drawn from the fixed non-increasing step table, and
the mesh Reynolds number R = V0*h/nu recomputed by the convergence loop
equals the target exactly (for any nonzero target). -/
theorem C8_configure_reynolds (re : ℚ) :
    (configure_reynolds re).nu = V0 * h / re ∧
    (configure_reynolds re).R_target = re ∧
    meshR (configure_reynolds re) = re ∧
    (re ≤ 0.5 → (configure_reynolds re).omega = 0.1) ∧
    (0.5 < re → re ≤ 1 → (configure_reynolds re).omega = 0.08) ∧
    (1 < re → re ≤ 2 → (configure_reynolds re).omega = 0.04) ∧
    (2 < re → re ≤ 5 → (configure_reynolds re).omega = 0.012) ∧
    (5 < re → re ≤ 10 → (configure_reynolds re).omega = 0.008) ∧
    (10 < re → (configure_reynolds re).omega = 0.005) ∧
    (∀ r1 r2 : ℚ, r1 ≤ r2 → omega_for r2 ≤ omega_for r1) := by
  refine ⟨rfl, rfl, ?_, ?_, ?_, ?_, ?_, ?_, ?_, ?_⟩
  · unfold meshR configure_reynolds
    dsimp only
    simp [V0, h, one_div_one_div]
  · intro h1
    unfold configure_reynolds omega_for
    dsimp only
    rw [if_pos h1]
  · intro h1 h2
    unfold configure_reynolds omega_for
    dsimp only
    rw [if_neg (by linarith), if_pos h2]
  · intro h1 h2
    unfold configure_reynolds omega_for
    dsimp only
    rw [if_neg (by linarith), if_neg (by linarith), if_pos h2]
  · intro h1 h2
    unfold configure_reynolds omega_for
    dsimp only
    rw [if_neg (by linarith), if_neg (by linarith), if_neg (by linarith), if_pos h2]
  · intro h1 h2
    unfold configure_reynolds omega_for
    dsimp only
    rw [if_neg (by linarith), if_neg (by linarith), if_neg (by linarith),
      if_neg (by linarith), if_pos h2]
  · intro h1
    unfold configure_reynolds omega_for
    dsimp only
    rw [if_neg (by linarith), if_neg (by linarith), if_neg (by linarith),
      if_neg (by linarith), if_neg (by linarith)]
  · intro r1 r2 h12
    unfold omega_for
    split_ifs <;> linarith

/-- Witness for C8 at target Reynolds number 5: the mesh Reynolds number
equals the target and omega comes from the 0.012 band. -/
theorem C8_configure_reynolds_witness :
    (2 : ℚ) < 5 ∧ (5 : ℚ) ≤ 5 ∧ meshR (configure_reynolds 5) = 5 ∧
      (configure_reynolds 5).omega = 0.012 :=
  ⟨by norm_num, by norm_num, (C8_configure_reynolds 5).2.2.1,
   (C8_configure_reynolds 5).2.2.2.2.2.2.1 (by norm_num) (by norm_num)⟩

/-- C3: the vorticity sweep is the in-order fold of its per-node update;
at interior non-obstacle nodes away from the domain boundary the update
is w += omega*(w* - w) with w* = (1/4)*(a1 - s*(R/4)*(a2 - a3)); at
nodes adjacent to the domain boundary it is the pure-diffusion update
w* = (1/4)*a1; the stability factor follows the fixed step table, is
non-increasing in the target Reynolds number, and is strictly below 1
beyond target Reynolds number 1.5. -/
theorem C3_vorticity_update (cfg : Config) (g : Grid) (i j : ℕ) :
    (¬ is_inside_beam i j → ¬(i = 1 ∨ i = Nxmax - 1 ∨ j = 1 ∨ j = Nymax - 1) →
      (vort_step cfg g (i, j)).w i j =
        g.w i j + cfg.omega *
          (0.25 * ((g.w (i + 1) j + g.w (i - 1) j + g.w i (j + 1) + g.w i (j - 1)) -
            stability_factor cfg.R_target * (meshR cfg / 4) *
              ((g.u i (j + 1) - g.u i (j - 1)) * (g.w (i + 1) j - g.w (i - 1) j) -
                (g.u (i + 1) j - g.u (i - 1) j) * (g.w i (j + 1) - g.w i (j - 1)))) -
            g.w i j)) ∧
    (¬ is_inside_beam i j → (i = 1 ∨ i = Nxmax - 1 ∨ j = 1 ∨ j = Nymax - 1) →
      (vort_step cfg g (i, j)).w i j =
        g.w i j + cfg.omega *
          (0.25 * (g.w (i + 1) j + g.w (i - 1) j + g.w i (j + 1) + g.w i (j - 1)) -
            g.w i j)) ∧
    relax_vorticity cfg g = interior_pairs.foldl (vort_step cfg) g ∧
    (∀ rt : ℚ, (rt ≤ 1.5 → stability_factor rt = 1) ∧
      (1.5 < rt → rt ≤ 2 → stability_factor rt = 0.8) ∧
      (2 < rt → rt < 5 → stability_factor rt = 0.7) ∧
      (5 ≤ rt → stability_factor rt = 0.4)) ∧
    (∀ r1 r2 : ℚ, r1 ≤ r2 → stability_factor r2 ≤ stability_factor r1) ∧
    (∀ rt : ℚ, 1.5 < rt → stability_factor rt < 1) := by
  refine ⟨?_, ?_, rfl, ?_, ?_, ?_⟩
  · intro hb hB
    unfold vort_step
    dsimp only
    rw [if_neg hb, if_neg hB]
    dsimp only
    rw [if_pos ⟨rfl, rfl⟩]
  · intro hb hB
    unfold vort_step
    dsimp only
    rw [if_neg hb, if_pos hB]
    dsimp only
    rw [if_pos ⟨rfl, rfl⟩]
  · intro rt
    refine ⟨?_, ?_, ?_, ?_⟩
    · intro h1
      unfold stability_factor
      rw [if_neg (by linarith), if_neg (by linarith), if_neg (by linarith)]
    · intro h1 h2
      unfold stability_factor
      rw [if_neg (by linarith), if_neg (by linarith), if_pos h1]
    · intro h1 h2
      unfold stability_factor
      rw [if_neg (by linarith), if_pos h1]
    · intro h1
      unfold stability_factor
      rw [if_pos h1]
  · intro r1 r2 h12
    unfold stability_factor
    split_ifs <;> linarith
  · intro rt h1
    unfold stability_factor
    split_ifs <;> linarith

/-- Witness for C3 at the interior node (5, 5) and the boundary-adjacent
node (1, 7), with target Reynolds number 5. -/
theorem C3_vorticity_update_witness :
    ¬ is_inside_beam 5 5 ∧
    ¬((5 : ℕ) = 1 ∨ (5 : ℕ) = Nxmax - 1 ∨ (5 : ℕ) = 1 ∨ (5 : ℕ) = Nymax - 1) ∧
    (vort_step (configure_reynolds 5) probe_div (5, 5)).w 5 5 =
      probe_div.w 5 5 + (configure_reynolds 5).omega *
        (0.25 * ((probe_div.w 6 5 + probe_div.w 4 5 + probe_div.w 5 6 + probe_div.w 5 4) -
          stability_factor (configure_reynolds 5).R_target * (meshR (configure_reynolds 5) / 4) *
            ((probe_div.u 5 6 - probe_div.u 5 4) * (probe_div.w 6 5 - probe_div.w 4 5) -
              (probe_div.u 6 5 - probe_div.u 4 5) * (probe_div.w 5 6 - probe_div.w 5 4))) -
          probe_div.w 5 5) ∧
    (vort_step (configure_reynolds 5) probe_div (1, 7)).w 1 7 =
      probe_div.w 1 7 + (configure_reynolds 5).omega *
        (0.25 * (probe_div.w 2 7 + probe_div.w 0 7 + probe_div.w 1 8 + probe_div.w 1 6) -
          probe_div.w 1 7) :=
  ⟨by rw [is_inside_beam_iff]; omega,
   by simp only [Nxmax, Nymax]; omega,
   (C3_vorticity_update (configure_reynolds 5) probe_div 5 5).1
     (by rw [is_inside_beam_iff]; omega) (by simp only [Nxmax, Nymax]; omega),
   (C3_vorticity_update (configure_reynolds 5) probe_div 1 7).2.1
     (by rw [is_inside_beam_iff]; omega) (Or.inl rfl)⟩

/-- C5: the corner treatment writes at each top corner the
Reynolds-dependent blend of the two single-face wall-vorticity
estimates: equal weights 0.5/0.5 below target Reynolds number 5 (and
then beam_boundaries leaves the corner at that blend), and for targets
at or above 5 the weight 0.7 goes to the estimate of smaller absolute
value. -/
theorem C5_corner_blend (cfg : Config) (g : Grid) :
    (cfg.R_target < 5 →
      (beam_core cfg g).w (IL - 1) (H + 1) =
        0.5 * (-2 * g.u (IL - 2) (H + 1) / (h * h) + -2 * g.u (IL - 1) (H + 2) / (h * h)) ∧
      (beam_core cfg g).w (IL + T + 1) (H + 1) =
        0.5 * (-2 * g.u (IL + T + 2) (H + 1) / (h * h) +
          -2 * g.u (IL + T + 1) (H + 2) / (h * h)) ∧
      (beam_boundaries cfg g).w (IL - 1) (H + 1) = (beam_core cfg g).w (IL - 1) (H + 1) ∧
      (beam_boundaries cfg g).w (IL + T + 1) (H + 1) =
        (beam_core cfg g).w (IL + T + 1) (H + 1)) ∧
    (5 ≤ cfg.R_target →
      (|-2 * g.u (IL - 2) (H + 1) / (h * h)| < |-2 * g.u (IL - 1) (H + 2) / (h * h)| →
        (beam_core cfg g).w (IL - 1) (H + 1) =
          0.7 * (-2 * g.u (IL - 2) (H + 1) / (h * h)) +
            0.3 * (-2 * g.u (IL - 1) (H + 2) / (h * h))) ∧
      (¬ |-2 * g.u (IL - 2) (H + 1) / (h * h)| < |-2 * g.u (IL - 1) (H + 2) / (h * h)| →
        (beam_core cfg g).w (IL - 1) (H + 1) =
          0.3 * (-2 * g.u (IL - 2) (H + 1) / (h * h)) +
            0.7 * (-2 * g.u (IL - 1) (H + 2) / (h * h))) ∧
      (|-2 * g.u (IL + T + 2) (H + 1) / (h * h)| < |-2 * g.u (IL + T + 1) (H + 2) / (h * h)| →
        (beam_core cfg g).w (IL + T + 1) (H + 1) =
          0.7 * (-2 * g.u (IL + T + 2) (H + 1) / (h * h)) +
            0.3 * (-2 * g.u (IL + T + 1) (H + 2) / (h * h))) ∧
      (¬ |-2 * g.u (IL + T + 2) (H + 1) / (h * h)| <
          |-2 * g.u (IL + T + 1) (H + 2) / (h * h)| →
        (beam_core cfg g).w (IL + T + 1) (H + 1) =
          0.3 * (-2 * g.u (IL + T + 2) (H + 1) / (h * h)) +
            0.7 * (-2 * g.u (IL + T + 1) (H + 2) / (h * h)))) := by
  have hleft : (beam_core cfg g).w (IL - 1) (H + 1) =
      corner_blend cfg.R_target (-2 * g.u (IL - 2) (H + 1) / (h * h))
        (-2 * g.u (IL - 1) (H + 2) / (h * h)) := by
    rw [beam_core_w]
    norm_num [IL, T, H]
  have hright : (beam_core cfg g).w (IL + T + 1) (H + 1) =
      corner_blend cfg.R_target (-2 * g.u (IL + T + 2) (H + 1) / (h * h))
        (-2 * g.u (IL + T + 1) (H + 2) / (h * h)) := by
    rw [beam_core_w]
    norm_num [IL, T, H]
  constructor
  · intro hlow
    refine ⟨?_, ?_, ?_, ?_⟩
    · rw [hleft]
      unfold corner_blend
      rw [if_neg (by linarith)]
    · rw [hright]
      unfold corner_blend
      rw [if_neg (by linarith)]
    · unfold beam_boundaries
      rw [smooth_pass_low cfg _ hlow]
    · unfold beam_boundaries
      rw [smooth_pass_low cfg _ hlow]
  · intro hhigh
    refine ⟨?_, ?_, ?_, ?_⟩
    · intro hlt
      rw [hleft]
      unfold corner_blend
      rw [if_pos hhigh, if_pos hlt]
    · intro hge
      rw [hleft]
      unfold corner_blend
      rw [if_pos hhigh, if_neg hge]
    · intro hlt
      rw [hright]
      unfold corner_blend
      rw [if_pos hhigh, if_pos hlt]
    · intro hge
      rw [hright]
      unfold corner_blend
      rw [if_pos hhigh, if_neg hge]

/-- Probe state for the corner blend: a stream-function value above the
left corner makes the horizontal estimate dominate. -/
def probe_c5 : Grid := ⟨fun i j => if i = 9 ∧ j = 10 then 10 else 0, fun _ _ => 0⟩

/-- Witness for C5 at target Reynolds number 5 on probe_c5, where the
vertical estimate (0) has the smaller magnitude. -/
theorem C5_corner_blend_witness :
    (5 : ℚ) ≤ (configure_reynolds 5).R_target ∧
    |-2 * probe_c5.u (IL - 2) (H + 1) / (h * h)| <
      |-2 * probe_c5.u (IL - 1) (H + 2) / (h * h)| ∧
    (beam_core (configure_reynolds 5) probe_c5).w (IL - 1) (H + 1) =
      0.7 * (-2 * probe_c5.u (IL - 2) (H + 1) / (h * h)) +
        0.3 * (-2 * probe_c5.u (IL - 1) (H + 2) / (h * h)) :=
  ⟨by norm_num [configure_reynolds],
   by norm_num [probe_c5, IL, H, h],
   ((C5_corner_blend (configure_reynolds 5) probe_c5).2
     (by norm_num [configure_reynolds])).1
     (by norm_num [probe_c5, IL, H, h])⟩

/-- C2 (counterexample): the loop body does NOT snapshot before
re-applying the obstacle-surface boundary conditions.  On the probe
state whose front-face vorticity value boundary enforcement rewrites,
the source ordering reports a zero vorticity change for the iteration,
while the claimed snapshot-first ordering would report a change of 1, so
the two orderings are observably different. -/
theorem C2_iteration_order_counterexample :
    (iteration_body (configure_reynolds (1 / 2)) probe_surface).dw = 0 ∧
    (iteration_body_spec_order (configure_reynolds (1 / 2)) probe_surface).dw = 1 ∧
    iteration_body (configure_reynolds (1 / 2)) probe_surface ≠
      iteration_body_spec_order (configure_reynolds (1 / 2)) probe_surface := by
  refine ⟨code_order_dw_probe_surface _, spec_order_dw_probe_surface _, ?_⟩
  intro heq
  have h1 := congrArg IterResult.dw heq
  rw [code_order_dw_probe_surface, spec_order_dw_probe_surface] at h1
  norm_num at h1

/-- C2 (amended): each iteration of the convergence loop first re-applies
the obstacle-surface boundary conditions, then snapshots both fields,
then runs the streamfunction sweep and the vorticity sweep, then
re-applies the boundary conditions again, and finally computes the
per-field maximum absolute change over all non-obstacle interior nodes
relative to that (post-enforcement) snapshot.  The final grid agrees
with the claimed snapshot-first ordering, and the two orderings agree
entirely whenever the incoming state is already a fixed point of
boundary enforcement. -/
theorem C2_iteration_order_amended (cfg : Config) (g : Grid) :
    (iteration_body cfg g).grid =
      beam_boundaries cfg
        (relax_vorticity cfg (relax_stream_function cfg (beam_boundaries cfg g))) ∧
    (iteration_body cfg g).du =
      (max_diffs
        (beam_boundaries cfg
          (relax_vorticity cfg (relax_stream_function cfg (beam_boundaries cfg g))))
        (beam_boundaries cfg g).u (beam_boundaries cfg g).w).1 ∧
    (iteration_body cfg g).dw =
      (max_diffs
        (beam_boundaries cfg
          (relax_vorticity cfg (relax_stream_function cfg (beam_boundaries cfg g))))
        (beam_boundaries cfg g).u (beam_boundaries cfg g).w).2 ∧
    (iteration_body_spec_order cfg g).grid = (iteration_body cfg g).grid ∧
    (beam_boundaries cfg g = g →
      iteration_body cfg g = iteration_body_spec_order cfg g) :=
  ⟨rfl, iteration_body_du cfg g, iteration_body_dw cfg g, rfl, iteration_orders_agree cfg g⟩

/-- Witness for the amended C2 on the zero state, a fixed point of
boundary enforcement. -/
theorem C2_iteration_order_amended_witness :
    beam_boundaries (configure_reynolds (1 / 2)) zero_grid = zero_grid ∧
    iteration_body (configure_reynolds (1 / 2)) zero_grid =
      iteration_body_spec_order (configure_reynolds (1 / 2)) zero_grid :=
  ⟨bb_zero_grid _,
   (C2_iteration_order_amended (configure_reynolds (1 / 2)) zero_grid).2.2.2.2
     (bb_zero_grid _)⟩

/-- C6 (counterexample): the smoothing pass does NOT examine the
neighborhood of the right top corner.  A vorticity spike of 100 at
(20, 10) — strictly interior, outside the obstacle, inside the 3x3 block
around the right corner (19, 9), and far above the 2.0 threshold —
survives beam_boundaries unchanged at target Reynolds number 5, while
the spec-modelled both-corner smoothing would blend it down to 60. -/
theorem C6_smoothing_counterexample :
    5 ≤ (configure_reynolds 5).R_target ∧
    2 < |(spike_at 20 10 100).w 20 10| ∧
    (beam_boundaries (configure_reynolds 5) (spike_at 20 10 100)).w 20 10 = 100 ∧
    (beam_boundaries_spec (configure_reynolds 5) (spike_at 20 10 100)).w 20 10 = 60 ∧
    (100 : ℚ) ≠ 60 := by
  refine ⟨by norm_num [configure_reynolds], by norm_num [spike_at],
    bb_spike_20_10 _ 100, ?_, by norm_num⟩
  rw [bb_spec_spike_20_10 _ (by norm_num [configure_reynolds]) 100 (by norm_num)]
  norm_num

/-- C6 (amended): the smoothing pass examines only the 3x3 block around
the top-LEFT obstacle corner (IL-1, H+1); every node outside that block
keeps its vorticity; the pass is disabled below target Reynolds number
5; inside the pass, a visited strictly-interior non-obstacle node whose
vorticity magnitude exceeds 2.0 (at visit time) is replaced by 0.6 times
its value plus 0.4 times the average of its admissible neighbors, and a
node at or below the threshold is left unchanged. -/
theorem C6_smoothing_amended (cfg : Config) (g : Grid) (i j : ℕ)
    (hout : (i, j) ∉ smooth_positions) :
    smooth_positions =
      [(8, 8), (8, 9), (8, 10), (9, 8), (9, 9), (9, 10), (10, 8), (10, 9), (10, 10)] ∧
    (smooth_pass cfg g).w i j = g.w i j ∧
    (cfg.R_target < 5 → smooth_pass cfg g = g) ∧
    (∀ (g2 : Grid) (p : ℕ × ℕ),
      0 < p.1 ∧ p.1 < Nxmax ∧ 0 < p.2 ∧ p.2 < Nymax ∧ ¬ is_inside_beam p.1 p.2 →
      2 < |g2.w p.1 p.2| → 0 < (smooth_sum g2 p.1 p.2).2 →
      (smooth_step g2 p).w p.1 p.2 =
        0.6 * g2.w p.1 p.2 +
          0.4 * ((smooth_sum g2 p.1 p.2).1 / ((smooth_sum g2 p.1 p.2).2 : ℚ))) ∧
    (∀ (g2 : Grid) (p : ℕ × ℕ), ¬ 2 < |g2.w p.1 p.2| → smooth_step g2 p = g2) :=
  ⟨smooth_positions_eq, smooth_pass_w_notmem cfg g i j hout, smooth_pass_low cfg g,
   fun g2 p => smooth_step_value g2 p, fun g2 p => smooth_step_no_spike g2 p⟩

/-- Witness for the amended C6: the right-corner node (20, 10) is outside
the smoothed block and keeps its vorticity. -/
theorem C6_smoothing_amended_witness :
    ((20 : ℕ), (10 : ℕ)) ∉ smooth_positions ∧
    (smooth_pass (configure_reynolds 5) (spike_at 20 10 100)).w 20 10 =
      (spike_at 20 10 100).w 20 10 :=
  ⟨by rw [smooth_positions_eq]; simp,
   (C6_smoothing_amended (configure_reynolds 5) (spike_at 20 10 100) 20 10
     (by rw [smooth_positions_eq]; simp)).2.1⟩

/-- C7 (counterexample): obstacle-surface enforcement is NOT idempotent
for every state and every configured Reynolds number.  At target
Reynolds number 5, a vorticity spike of 100 at (8, 10) is smoothed to 60
by one beam_boundaries call and re-smoothed to 36 by a second call. -/
theorem C7_idempotence_counterexample :
    (beam_boundaries (configure_reynolds 5) (spike_at 8 10 100)).w 8 10 = 60 ∧
    (beam_boundaries (configure_reynolds 5)
      (beam_boundaries (configure_reynolds 5) (spike_at 8 10 100))).w 8 10 = 36 ∧
    beam_boundaries (configure_reynolds 5)
        (beam_boundaries (configure_reynolds 5) (spike_at 8 10 100)) ≠
      beam_boundaries (configure_reynolds 5) (spike_at 8 10 100) := by
  have h5 : (5 : ℚ) ≤ (configure_reynolds 5).R_target := by norm_num [configure_reynolds]
  have e1 : beam_boundaries (configure_reynolds 5) (spike_at 8 10 100) =
      spike_at 8 10 (0.6 * 100) := bb_spike_8_10 _ h5 100 (by norm_num)
  have e2 : beam_boundaries (configure_reynolds 5) (spike_at 8 10 (0.6 * 100)) =
      spike_at 8 10 (0.6 * (0.6 * 100)) := bb_spike_8_10 _ h5 (0.6 * 100) (by norm_num)
  refine ⟨?_, ?_, ?_⟩
  · rw [e1]
    norm_num [spike_at]
  · rw [e1, e2]
    norm_num [spike_at]
  · rw [e1, e2]
    intro heq
    have h1 := congrArg (fun gr => gr.w 8 10) heq
    norm_num [spike_at] at h1

/-- C7 (amended): below the smoothing threshold (target Reynolds number
under 5) obstacle-surface enforcement is idempotent — there the
smoothing pass is disabled and beam_boundaries reduces to its
write-only core, and calling it twice equals calling it once. -/
theorem C7_idempotence_amended (cfg : Config) (g : Grid) (hlow : cfg.R_target < 5) :
    beam_boundaries cfg (beam_boundaries cfg g) = beam_boundaries cfg g ∧
    beam_boundaries cfg g = beam_core cfg g :=
  ⟨bb_idempotent_low cfg g hlow, by
    unfold beam_boundaries
    rw [smooth_pass_low cfg _ hlow]⟩

/-- Witness for the amended C7 at target Reynolds number 0.5. -/
theorem C7_idempotence_amended_witness :
    (configure_reynolds (1 / 2)).R_target < 5 ∧
    (beam_boundaries (configure_reynolds (1 / 2))
        (beam_boundaries (configure_reynolds (1 / 2)) probe_surface) =
      beam_boundaries (configure_reynolds (1 / 2)) probe_surface ∧
     beam_boundaries (configure_reynolds (1 / 2)) probe_surface =
      beam_core (configure_reynolds (1 / 2)) probe_surface) :=
  ⟨by norm_num [configure_reynolds],
   C7_idempotence_amended (configure_reynolds (1 / 2)) probe_surface
     (by norm_num [configure_reynolds])⟩

/-- C9 (counterexample): the convergence loop's stagnation counters do
NOT begin at their initial values on every run: the loop's behavior
depends on the incoming values of the function-static locals (here
threaded explicitly), which it never resets.  Two runs from the same
fields and configuration but different incoming static values produce
different results. -/
theorem C9_statics_counterexample :
    (relax_until_converge (configure_reynolds (1 / 2)) probe_div ⟨0, 42⟩ 350000).statics =
      ⟨0, 42⟩ ∧
    (relax_until_converge (configure_reynolds (1 / 2)) probe_div statics_init 350000).statics =
      statics_init ∧
    statics_init = (⟨-1, 0⟩ : ConvStatics) ∧
    relax_until_converge (configure_reynolds (1 / 2)) probe_div ⟨0, 42⟩ 350000 ≠
      relax_until_converge (configure_reynolds (1 / 2)) probe_div statics_init 350000 := by
  have h1 := relax_until_converge_diverge (configure_reynolds (1 / 2)) probe_div ⟨0, 42⟩
    probe_div_diverges
  have h2 := relax_until_converge_diverge (configure_reynolds (1 / 2)) probe_div statics_init
    probe_div_diverges
  refine ⟨by rw [h1], by rw [h2], rfl, ?_⟩
  intro heq
  have h3 := congrArg (fun r => r.statics.stagnant_count) heq
  simp only [h1, h2] at h3
  simp only [statics_init] at h3
  omega

/-- C9 (amended): the iteration counter and per-iteration change norms
are per-call locals of the convergence loop, but the stagnation-tracking
locals are function-static: the loop does not reset them at the start of
a run — a run that terminates without reaching the partial-convergence
branch (for instance by immediate divergence) returns the incoming
values unchanged — and the multi-Reynolds sweep threads them from each
run into the next. -/
theorem C9_statics_amended (cfg : Config) (etol : ℚ) (maxIter fuel iter : ℕ) (g : Grid)
    (st : ConvStatics)
    (hd : divergence_threshold cfg.R_target < (iteration_body cfg g).du ∨
      divergence_threshold cfg.R_target < (iteration_body cfg g).dw) :
    (relax_loop cfg etol maxIter (fuel + 1) g st iter).statics = st ∧
    relax_until_converge cfg g st maxIter =
      relax_loop cfg (effective_tol cfg.R_target) maxIter maxIter g st 0 ∧
    (∀ (re : ℚ) (rest : List ℚ) (g2 : Grid) (st2 : ConvStatics),
      reynolds_sweep (re :: rest) g2 st2 =
        run_simulation re g2 st2 ::
          reynolds_sweep rest (run_simulation re g2 st2).grid
            (run_simulation re g2 st2).statics) := by
  refine ⟨?_, rfl, fun re rest g2 st2 => rfl⟩
  rw [relax_loop_diverge_step cfg etol maxIter fuel iter g st hd]

/-- Witness for the amended C9: an immediately diverging run returns the
incoming static values (0, 42) unchanged. -/
theorem C9_statics_amended_witness :
    (divergence_threshold (configure_reynolds (1 / 2)).R_target <
        (iteration_body (configure_reynolds (1 / 2)) probe_div).du ∨
      divergence_threshold (configure_reynolds (1 / 2)).R_target <
        (iteration_body (configure_reynolds (1 / 2)) probe_div).dw) ∧
    (relax_loop (configure_reynolds (1 / 2)) tol 350000 350000 probe_div ⟨0, 42⟩ 7).statics =
      ⟨0, 42⟩ :=
  ⟨probe_div_diverges,
   (C9_statics_amended (configure_reynolds (1 / 2)) tol 350000 349999 7 probe_div ⟨0, 42⟩
     probe_div_diverges).1⟩

/-- C4: whenever an iteration's change norms exceed the divergence
threshold (50 at target Reynolds numbers at or above 5, 1000 otherwise;
NaN cannot arise over the rationals), the convergence loop returns
failure immediately with the incoming statics; a failed run performs no
normalization and no export; and the multi-Reynolds sweep still produces
one result per requested Reynolds number. -/
theorem C4_divergence_detection (cfg : Config) (etol : ℚ) (maxIter fuel iter : ℕ)
    (g : Grid) (st : ConvStatics)
    (hd : divergence_threshold cfg.R_target < (iteration_body cfg g).du ∨
      divergence_threshold cfg.R_target < (iteration_body cfg g).dw) :
    relax_loop cfg etol maxIter (fuel + 1) g st iter =
      ⟨false, (iteration_body cfg g).grid, st, iter + 1⟩ ∧
    (∀ rt : ℚ, (5 ≤ rt → divergence_threshold rt = 50) ∧
      (rt < 5 → divergence_threshold rt = 1000)) ∧
    (∀ (re : ℚ) (g2 : Grid) (st2 : ConvStatics),
      (relax_until_converge (configure_reynolds re) (borders (reset_fields g2)) st2
        350000).success = false →
      run_simulation re g2 st2 =
        ⟨false, false, false,
          (relax_until_converge (configure_reynolds re) (borders (reset_fields g2)) st2
            350000).grid,
          (relax_until_converge (configure_reynolds re) (borders (reset_fields g2)) st2
            350000).statics⟩) ∧
    (∀ (l : List ℚ) (g2 : Grid) (st2 : ConvStatics),
      (reynolds_sweep l g2 st2).length = l.length) := by
  refine ⟨relax_loop_diverge_step cfg etol maxIter fuel iter g st hd, ?_,
    fun re g2 st2 hf => run_simulation_failure re g2 st2 hf, reynolds_sweep_length⟩
  intro rt
  constructor
  · intro h5
    unfold divergence_threshold
    rw [if_pos h5]
  · intro h5
    unfold divergence_threshold
    rw [if_neg (not_le.mpr h5)]

/-- Witness for C4: on the probe state the first iteration's vorticity
change exceeds the threshold and the loop exits with failure at
iteration 1. -/
theorem C4_divergence_detection_witness :
    (divergence_threshold (configure_reynolds (1 / 2)).R_target <
        (iteration_body (configure_reynolds (1 / 2)) probe_div).du ∨
      divergence_threshold (configure_reynolds (1 / 2)).R_target <
        (iteration_body (configure_reynolds (1 / 2)) probe_div).dw) ∧
    relax_loop (configure_reynolds (1 / 2)) tol 350000 350000 probe_div statics_init 0 =
      ⟨false, (iteration_body (configure_reynolds (1 / 2)) probe_div).grid, statics_init, 1⟩ :=
  ⟨probe_div_diverges,
   (C4_divergence_detection (configure_reynolds (1 / 2)) tol 350000 349999 0 probe_div
     statics_init probe_div_diverges).1⟩

end BeamNBS
